import Mathlib

/-!
Verification of the script-kiwi script resolution and execution pipeline.

This file shallowly embeds the parts of the repository that the checked
properties are about:

- `truncate_large_response` (tools/run.py) over a Python-value type `PyVal`;
- `RunTool._validate_dependencies`, the registry/file dependency merge in
  `RunTool.execute`, `RunTool._check_pip_dependencies` and
  `RunTool._install_pip_dependencies` (tools/run.py);
- `EnvManager.install_packages` package-spec construction (utils/env_manager.py);
- `ScriptResolver.resolve_script` / `_check_project_space` / `_check_user_space`
  / `_get_lockfile_version` (utils/script_resolver.py), with the filesystem
  modelled as lists of relative file paths per tier;
- the control flow of `RunTool.execute` (tools/run.py), with external
  collaborators (registry, preflight, pip, the script being run) given as
  oracles and side effects recorded in an explicit effect trace;
- the stderr/logging-handler rewiring in `RunTool._run_function_script`.

Python values are embedded as `PyVal`; machine-level details (real files,
sockets, clocks) are abstracted into explicit inputs, but every branch and
every constructed response mirrors the source line by line.  Human-readable
message texts that no property depends on are abbreviated; all keys, codes,
status strings and the branching structure are kept exactly.
-/

namespace ScriptKiwi

/-- Embedded Python values (the JSON-like fragment the pipeline manipulates):
`None`, booleans, integers, strings, lists, and insertion-ordered dicts. -/
inductive PyVal where
  | none
  | bool (b : Bool)
  | int (n : Int)
  | str (s : String)
  | list (xs : List PyVal)
  | dict (kvs : List (String × PyVal))
deriving Repr

/-! Structural equality for `PyVal`.  `deriving DecidableEq` has no handler
for the nested `List` occurrences, so equality is written as a mutual
recursion and proved to decide propositional equality. -/

mutual

def pyBeq : PyVal → PyVal → Bool
  | .none, .none => true
  | .bool a, .bool b => a == b
  | .int a, .int b => a == b
  | .str a, .str b => a == b
  | .list a, .list b => pyBeqList a b
  | .dict a, .dict b => pyBeqFields a b
  | _, _ => false

def pyBeqList : List PyVal → List PyVal → Bool
  | [], [] => true
  | x :: xs, y :: ys => pyBeq x y && pyBeqList xs ys
  | _, _ => false

def pyBeqFields : List (String × PyVal) → List (String × PyVal) → Bool
  | [], [] => true
  | (k, v) :: xs, (l, w) :: ys => k == l && pyBeq v w && pyBeqFields xs ys
  | _, _ => false

end

mutual

theorem pyBeq_iff_eq : ∀ a b : PyVal, pyBeq a b = true ↔ a = b
  | .none, .none => by simp [pyBeq]
  | .bool _, .bool _ => by simp [pyBeq]
  | .int _, .int _ => by simp [pyBeq]
  | .str _, .str _ => by simp [pyBeq]
  | .list xs, .list ys => by simp [pyBeq, pyBeqList_iff_eq xs ys]
  | .dict xs, .dict ys => by simp [pyBeq, pyBeqFields_iff_eq xs ys]
  | .none, .bool _ | .none, .int _ | .none, .str _ | .none, .list _ | .none, .dict _
  | .bool _, .none | .bool _, .int _ | .bool _, .str _ | .bool _, .list _ | .bool _, .dict _
  | .int _, .none | .int _, .bool _ | .int _, .str _ | .int _, .list _ | .int _, .dict _
  | .str _, .none | .str _, .bool _ | .str _, .int _ | .str _, .list _ | .str _, .dict _
  | .list _, .none | .list _, .bool _ | .list _, .int _ | .list _, .str _ | .list _, .dict _
  | .dict _, .none | .dict _, .bool _ | .dict _, .int _ | .dict _, .str _ | .dict _, .list _ =>
      by simp [pyBeq]

theorem pyBeqList_iff_eq : ∀ xs ys : List PyVal, pyBeqList xs ys = true ↔ xs = ys
  | [], [] => by simp [pyBeqList]
  | [], _ :: _ => by simp [pyBeqList]
  | _ :: _, [] => by simp [pyBeqList]
  | x :: xs, y :: ys => by
      simp [pyBeqList, pyBeq_iff_eq x y, pyBeqList_iff_eq xs ys]

theorem pyBeqFields_iff_eq : ∀ xs ys : List (String × PyVal), pyBeqFields xs ys = true ↔ xs = ys
  | [], [] => by simp [pyBeqFields]
  | [], _ :: _ => by simp [pyBeqFields]
  | _ :: _, [] => by simp [pyBeqFields]
  | (k, v) :: xs, (l, w) :: ys => by
      simp [pyBeqFields, pyBeq_iff_eq v w, pyBeqFields_iff_eq xs ys, Prod.ext_iff, and_assoc]

end

instance : DecidableEq PyVal := fun a b =>
  decidable_of_iff (pyBeq a b = true) (pyBeq_iff_eq a b)

/-- `type(v).__name__` for an embedded value. -/
def pyTypeName : PyVal → String
  | .none => "NoneType"
  | .bool _ => "bool"
  | .int _ => "int"
  | .str _ => "str"
  | .list _ => "list"
  | .dict _ => "dict"

/-- Python truthiness of an embedded value. -/
def pyTruthy : PyVal → Bool
  | .none => false
  | .bool b => b
  | .int n => n != 0
  | .str s => s != ""
  | .list xs => !xs.isEmpty
  | .dict kvs => !kvs.isEmpty

/-- `d.get(k)` with default `None`.  The dicts handled by the pipeline have
unique keys, for which first-match lookup agrees with Python lookup. -/
def dictGet (kvs : List (String × PyVal)) (k : String) : PyVal :=
  match kvs.find? (fun kv => kv.1 == k) with
  | some kv => kv.2
  | Option.none => .none

/-- `d.get(k, default)`. -/
def dictGetD (kvs : List (String × PyVal)) (k : String) (dflt : PyVal) : PyVal :=
  match kvs.find? (fun kv => kv.1 == k) with
  | some kv => kv.2
  | Option.none => dflt

/-- `k in d` for a dict value; `false` on non-dicts. -/
def hasKey (v : PyVal) (k : String) : Bool :=
  match v with
  | .dict kvs => (kvs.find? (fun kv => kv.1 == k)).isSome
  | _ => false

/-- Top-level lookup on a response value: `some` of the value stored under
`k` when `v` is a dict that has the key, `Option.none` otherwise. -/
def topGet (v : PyVal) (k : String) : Option PyVal :=
  match v with
  | .dict kvs => (kvs.find? (fun kv => kv.1 == k)).map (fun kv => kv.2)
  | _ => Option.none

/-- Python `a or b` (returns `a` if truthy, else `b`). -/
def pyOr (a b : PyVal) : PyVal := if pyTruthy a then a else b

/-- `s.startswith(pre)`, computed on the character sequence (the library
`String.startsWith` does not reduce inside the kernel). -/
def strStartsWith (s pre : String) : Bool := pre.data.isPrefixOf s.data

/-- `s.endswith(suf)`, computed on the character sequence. -/
def strEndsWith (s suf : String) : Bool := suf.data.isSuffixOf s.data

/-- `s.replace("-", "_")`: single-character replacement is a character map. -/
def strReplaceDash (s : String) : String :=
  String.mk (s.data.map (fun c => if c == '-' then '_' else c))

/-! ### `truncate_large_response` (tools/run.py, lines 30-85)

The source returns a pair `(truncated_data, truncation_info)`.  The info
dict is modelled as an association list from the path string to a note;
the note keeps the numeric fields of the info record built by the source
(the human message sentence is dropped, no property mentions it). -/

/-- One entry of `truncation_info`. -/
inductive TruncNote where
  | array (original_count truncated_count : Nat)
  | string (original_length truncated_length : Nat)
deriving Repr, DecidableEq

mutual

/-- `truncate_large_response(data, max_items, max_string, path)`:
dicts recurse per key; lists longer than `max_items` are cut to their first
`max_items` elements (without recursing into them — the source returns
`data[:max_items]` directly in that branch); lists within the cap recurse
elementwise; strings longer than `max_string` are cut to `max_string`
characters with an appended annotation; everything else passes through. -/
def truncate_large_response (max_items max_string : Nat) (path : String) :
    PyVal → PyVal × List (String × TruncNote)
  | .dict kvs =>
      let r := truncDictItems max_items max_string path kvs
      (.dict r.1, r.2)
  | .list xs =>
      if xs.length > max_items then
        (.list (xs.take max_items),
         [((if path == "" then "root" else path), .array xs.length max_items)])
      else
        let r := truncListItems max_items max_string path 0 xs
        (.list r.1, r.2)
  | .str s =>
      if s.length > max_string then
        (.str (s.take max_string ++
               "\n... (truncated " ++ toString (s.length - max_string) ++ " more characters)"),
         [((if path == "" then "root" else path), .string s.length max_string)])
      else (.str s, [])
  | v => (v, [])

/-- The elementwise loop of the list branch (`for i, item in enumerate(data)`);
`f"{path}[{i}]" if path else f"[{i}]"` is `path ++ "[" ++ i ++ "]"` in both
cases. -/
def truncListItems (max_items max_string : Nat) (path : String) (i : Nat) :
    List PyVal → List PyVal × List (String × TruncNote)
  | [] => ([], [])
  | x :: xs =>
      let rx := truncate_large_response max_items max_string
        (path ++ "[" ++ toString i ++ "]") x
      let rs := truncListItems max_items max_string path (i + 1) xs
      (rx.1 :: rs.1, rx.2 ++ rs.2)

/-- The per-key loop of the dict branch. -/
def truncDictItems (max_items max_string : Nat) (path : String) :
    List (String × PyVal) → List (String × PyVal) × List (String × TruncNote)
  | [] => ([], [])
  | (k, v) :: kvs =>
      let rv := truncate_large_response max_items max_string
        (if path == "" then k else path ++ "." ++ k) v
      let rs := truncDictItems max_items max_string path kvs
      ((k, rv.1) :: rs.1, rv.2 ++ rs.2)

end

/-! A value is *within caps* when every list in it has at most `max_items`
elements and every string at most `max_string` characters. -/

mutual

def withinCaps (max_items max_string : Nat) : PyVal → Bool
  | .dict kvs => withinCapsFields max_items max_string kvs
  | .list xs => (xs.length ≤ max_items : Bool) && withinCapsList max_items max_string xs
  | .str s => (s.length ≤ max_string : Bool)
  | _ => true

def withinCapsList (max_items max_string : Nat) : List PyVal → Bool
  | [] => true
  | x :: xs => withinCaps max_items max_string x && withinCapsList max_items max_string xs

def withinCapsFields (max_items max_string : Nat) : List (String × PyVal) → Bool
  | [] => true
  | (_, v) :: kvs => withinCaps max_items max_string v && withinCapsFields max_items max_string kvs

end

/-! ### Dependency validation (tools/run.py, `RunTool._validate_dependencies`,
lines 185-238)

The source raises `ValueError` with a message naming the offending index and
field; each distinct `raise` site is one constructor of `DepError`, carrying
exactly the data interpolated into that message. -/

/-- A normalized dependency record `{"name": name, "version": version}`. -/
structure Dep where
  name : String
  version : Option String
deriving Repr, DecidableEq

/-- The `ValueError`s raised by `_validate_dependencies`, one constructor per
`raise` site, carrying the index and the data the message shows. -/
inductive DepError where
  /-- "Dependencies must be a list, got {type}." -/
  | notAList (typeName : String)
  /-- "Dependency {i} must be a dict, got {type}: {dep}." -/
  | entryNotADict (index : Nat) (typeName : String)
  /-- "Dependency {i} (name) field must be a string, got {type}: {name}." -/
  | badNameField (index : Nat) (typeName : String)
  /-- "Dependency {i} (name) field appears to be JSON-encoded: {name}." -/
  | jsonEncodedName (index : Nat) (nameValue : String)
  /-- "Dependency {i} (version) field must be a string or None, got {type}." -/
  | badVersionField (index : Nat) (typeName : String)
deriving Repr, DecidableEq

/-- One iteration of the validation loop, at index `i`.
`if not name or not isinstance(name, str)` rejects a missing/`None` name,
any non-string name, and the empty string; then names starting with `"{"`
or `"["` are rejected as JSON-encoded corruption; then a version that is
neither `None` nor a string is rejected. -/
def validateEntry (i : Nat) (dep : PyVal) : Except DepError Dep :=
  match dep with
  | .dict kvs =>
      match dictGet kvs "name" with
      | .str s =>
          if s == "" then .error (.badNameField i "str")
          else if strStartsWith s "\x7b" || strStartsWith s "[" then
            .error (.jsonEncodedName i s)
          else
            match dictGet kvs "version" with
            | .none => .ok ⟨s, Option.none⟩
            | .str vs => .ok ⟨s, some vs⟩
            | v => .error (.badVersionField i (pyTypeName v))
      | v => .error (.badNameField i (pyTypeName v))
  | v => .error (.entryNotADict i (pyTypeName v))

/-- The `for i, dep in enumerate(dependencies)` loop: the first failing entry
aborts with its error, otherwise the normalized records accumulate in order. -/
def validateFrom (i : Nat) : List PyVal → Except DepError (List Dep)
  | [] => .ok []
  | d :: ds =>
      match validateEntry i d with
      | .error e => .error e
      | .ok v =>
          match validateFrom (i + 1) ds with
          | .error e => .error e
          | .ok vs => .ok (v :: vs)

/-- `RunTool._validate_dependencies(dependencies)`. -/
def validate_dependencies : PyVal → Except DepError (List Dep)
  | .list ds => validateFrom 0 ds
  | v => .error (.notAList (pyTypeName v))

/-! ### Package name mapping tables (utils/script_metadata.py, lines 13-30) -/

/-- `MODULE_TO_PACKAGE` from utils/script_metadata.py. -/
def MODULE_TO_PACKAGE : List (String × String) :=
  [("git", "GitPython"),
   ("bs4", "beautifulsoup4"),
   ("yaml", "PyYAML"),
   ("dotenv", "python-dotenv"),
   ("sklearn", "scikit-learn"),
   ("cv2", "opencv-python"),
   ("PIL", "Pillow"),
   ("openai", "openai"),
   ("anthropic", "anthropic"),
   ("supabase", "supabase"),
   ("googleapiclient", "google-api-python-client"),
   ("google_auth_oauthlib", "google-auth-oauthlib")]

/-- `PACKAGE_TO_MODULE = {v: k for k, v in MODULE_TO_PACKAGE.items()}`. -/
def PACKAGE_TO_MODULE : List (String × String) :=
  MODULE_TO_PACKAGE.map (fun kv => (kv.2, kv.1))

/-- `table.get(k, k)` on a string-to-string mapping. -/
def tableGetD (table : List (String × String)) (k : String) : String :=
  match table.find? (fun kv => kv.1 == k) with
  | some kv => kv.2
  | Option.none => k

/-! ### Registry/file dependency merge (tools/run.py, `RunTool.execute`,
lines 1154-1177)

`existing_names` is the set of `d.get("name")` values of the file-extracted
dependency dicts, computed once before the loop; each validated registry
dependency has its name mapped through `MODULE_TO_PACKAGE` and is appended
only when the mapped name is truthy and *not* already among the
file-extracted names. -/

def mergeRegistryDeps (pip_dependencies : List PyVal)
    (validated_registry_deps : List Dep) : List PyVal :=
  let existing_names : List PyVal :=
    pip_dependencies.filterMap (fun d =>
      match d with
      | .dict kvs => some (dictGet kvs "name")
      | _ => Option.none)
  validated_registry_deps.foldl (fun acc dep =>
    let dep_name := tableGetD MODULE_TO_PACKAGE dep.name
    if dep_name != "" && !(existing_names.contains (.str dep_name)) then
      acc ++ [.dict [("name", .str dep_name),
                     ("version", match dep.version with
                                 | some v => .str v
                                 | Option.none => .none)]]
    else acc) pip_dependencies

/-! ### Missing-dependency check (tools/run.py, `RunTool._check_pip_dependencies`,
lines 240-294)

Import success in the current process is an oracle `importOk`. -/

/-- One entry of the missing list: name, version, probed module name, and the
suggested install command. -/
structure MissingDep where
  name : String
  version : Option String
  module : String
  install_cmd : String
deriving Repr, DecidableEq

/-- The loop body of `_check_pip_dependencies` over already-validated
dependencies: internal `lib`-prefixed names are skipped, the name is mapped
through `PACKAGE_TO_MODULE` (falling back to hyphen-to-underscore), and a
package is missing when neither the mapped module name nor the literal name
imports. -/
def checkMissingDeps (importOk : String → Bool) (validated : List Dep) :
    List MissingDep :=
  validated.foldl (fun missing dep =>
    if strStartsWith dep.name "lib" then missing
    else
      let module_name := match PACKAGE_TO_MODULE.find? (fun kv => kv.1 == dep.name) with
        | some kv => kv.2
        | Option.none => strReplaceDash dep.name
      if importOk module_name then missing
      else if importOk dep.name then missing
      else
        missing ++ [{ name := dep.name, version := dep.version,
                      module := module_name,
                      install_cmd :=
                        match dep.version with
                        | some v => "pip install " ++ dep.name ++ v
                        | Option.none => "pip install " ++ dep.name }]) []

/-- `RunTool._check_pip_dependencies`: validate, then scan.  A validation
failure is the `ValueError` the source lets escape to the caller. -/
def check_pip_dependencies (importOk : String → Bool) (dependencies : List PyVal) :
    Except DepError (List MissingDep) :=
  match validate_dependencies (.list dependencies) with
  | .error e => .error e
  | .ok validated => .ok (checkMissingDeps importOk validated)

/-! ### Pip install-spec construction

Two distinct constructions exist in the repository. -/

/-- `EnvManager.install_packages` (utils/env_manager.py, lines 229-238):
no/empty version gives the bare name; a version starting with a comparison
operator is appended unchanged; any other version becomes `name==version`. -/
def env_install_package_spec (pkg_name : String) (pkg_version : Option String) : String :=
  match pkg_version with
  | some v =>
      if v != "" then
        if strStartsWith v ">=" || strStartsWith v "<=" || strStartsWith v "==" ||
           strStartsWith v "~=" || strStartsWith v "!=" then
          pkg_name ++ v
        else pkg_name ++ "==" ++ v
      else pkg_name
  | Option.none => pkg_name

/-- `RunTool._install_pip_dependencies` (tools/run.py, line 320):
`package_spec = f"{pkg_name}{pkg_version}" if pkg_version else pkg_name` —
the version string is concatenated unchanged whenever it is truthy. -/
def run_install_package_spec (pkg_name : String) (pkg_version : Option String) : String :=
  match pkg_version with
  | some v => if v != "" then pkg_name ++ v else pkg_name
  | Option.none => pkg_name

/-- Result of an install batch, as built by `_install_pip_dependencies`
(tools/run.py, lines 296-347).  `pipInstallOk` is the oracle for whether
`pip install <spec>` exits 0. -/
structure InstallResult where
  status : String
  installed : List Dep
  failed : List String
deriving Repr, DecidableEq

/-- `RunTool._install_pip_dependencies` over already-validated packages:
sequential installs, each failure recorded independently; status `success`
with no failures, `partial` when some installed, `error` when none did. -/
def install_pip_dependencies (pipInstallOk : String → Bool) (packages : List Dep) :
    InstallResult :=
  if packages.isEmpty then ⟨"success", [], []⟩
  else
    let step := packages.foldl (fun (acc : List Dep × List String) pkg =>
      let spec := run_install_package_spec pkg.name pkg.version
      if pipInstallOk spec then (acc.1 ++ [pkg], acc.2)
      else (acc.1, acc.2 ++ [pkg.name])) ([], [])
    { status :=
        if step.2.isEmpty then "success"
        else if !step.1.isEmpty then "partial"
        else "error",
      installed := step.1, failed := step.2 }

/-! ### Script resolution (utils/script_resolver.py)

A storage tier is modelled as the list of its *files*, each a path given as
the list of segments relative to the tier's scripts root (so
`.ai/scripts/scraping/google-maps/example.py` is
`["scraping", "google-maps", "example.py"]`).  Directory existence is
membership of some file under the directory.  `Path.rglob` yields the
files in list order; which of several matches comes first is exactly the
implementation-defined traversal order the source inherits. -/

/-- `rglob(f"{script_name}.py")` match: the file's name is `script_name.py`. -/
def matchesScriptFile (script_name : String) (p : List String) : Bool :=
  p.getLast? == some (script_name ++ ".py")

/-- `ScriptResolver._check_project_space` / `_check_user_space` (they are
verbatim copies of each other over a different root, lines 147-213): with a
category, the direct path `category/{name}.py` is tried first, then a
recursive search below the category directory (guarded, as in the source,
by the directory existing); without a category the whole tier is searched
recursively. -/
def check_space (tier : List (List String)) (script_name : String)
    (category : Option String) : Option (List String) :=
  match category with
  | some cat =>
      let direct := [cat, script_name ++ ".py"]
      if tier.contains direct then some direct
      else if tier.any (fun p => p.head? == some cat) then
        tier.find? (fun p =>
          p.head? == some cat && decide (2 ≤ p.length) && matchesScriptFile script_name p)
      else Option.none
  | Option.none => tier.find? (matchesScriptFile script_name)

/-- `ScriptResolver._extract_category_from_path`: the first path segment
relative to the scripts root (the source recovers that relative path from
the absolute path string; paths here are already relative).  The source's
fallback to the parent directory name only triggers on paths outside every
scripts root, which the resolver never produces. -/
def extract_category_from_path (rel : List String) : String :=
  match rel.head? with
  | some c => c
  | Option.none => ""

/-- `ScriptResolver._extract_subcategory_from_path`: second segment when the
relative path has three or more parts; for two parts, the second only if it
does not end in `.py`; otherwise `None`. -/
def extract_subcategory_from_path (rel : List String) : Option String :=
  if 3 ≤ rel.length then rel.get? 1
  else if rel.length == 2 then
    match rel.get? 1 with
    | some s => if !(strEndsWith s ".py") then some s else Option.none
    | Option.none => Option.none
  else Option.none

/-- Outcome of trying to read one lockfile path: the file may be absent, it
may raise on open/parse (`unreadable`), or it parses to a JSON document. -/
inductive FileRead where
  | absent
  | unreadable
  | content (doc : PyVal)
deriving Repr, DecidableEq

/-- The body of the `try` block of `_get_lockfile_version` (lines 392-397):
`lockfile.get("scripts", {})` raises `AttributeError` unless the document is
a dict, as does `scripts.get(script_name)` unless that value is a dict. -/
def lockfile_lookup_body (doc : PyVal) (script_name : String) : Except String PyVal :=
  match doc with
  | .dict kvs =>
      match dictGetD kvs "scripts" (.dict []) with
      | .dict skvs => .ok (dictGet skvs script_name)
      | _ => .error "AttributeError"
  | _ => .error "AttributeError"

/-- Which lockfile path the function settles on: the project one when it
exists, else the user one (lines 384-390). -/
def chosenLockfile (project_lock user_lock : FileRead) : FileRead :=
  match project_lock with
  | .absent => user_lock
  | l => l

/-- `ScriptResolver._get_lockfile_version` (lines 382-399) with its
exception flow explicit: the project lockfile is preferred when it exists,
else the user lockfile; if neither exists the function returns `None`
before the `try` block; inside the `try`, any failure is caught and mapped
to `None`.  The result is `.ok` exactly when no exception escapes. -/
def get_lockfile_version_exc (project_lock user_lock : FileRead)
    (script_name : String) : Except String PyVal :=
  match chosenLockfile project_lock user_lock with
  | .absent => .ok .none
  | .unreadable => .ok .none
  | .content doc =>
      match lockfile_lookup_body doc script_name with
      | .ok v => .ok v
      | .error _ => .ok .none

/-- `_get_lockfile_version` as the plain value the caller sees. -/
def get_lockfile_version (project_lock user_lock : FileRead)
    (script_name : String) : PyVal :=
  match get_lockfile_version_exc project_lock user_lock script_name with
  | .ok v => v
  | .error _ => .none

/-- The environment `resolve_script` runs against: the two tiers' files, the
two lockfile paths, and the registry outcome.  `registry_get` is the result
of `_check_registry` for a given lockfile version — it is already `None`
both when the script is not in the registry and when the lookup failed,
since `_check_registry` swallows every exception (lines 377-380). -/
structure ResolverEnv where
  project_scripts : List (List String)
  user_scripts : List (List String)
  project_lock : FileRead
  user_lock : FileRead
  registry_get : PyVal → Option (List (String × PyVal))

/-- The dict returned by `resolve_script`; fields absent from a branch's
dict are `Option.none` / `.none` here. -/
structure ResolveResult where
  location : Option String
  path : Option (List String)
  category : PyVal
  subcategory : PyVal
  version : PyVal
  lockfile_version : PyVal
  registry_data : Option (List (String × PyVal))
deriving Repr

/-- `category or extracted`: the explicit category argument wins only when
it is a truthy (non-empty) string. -/
def detectedCategory (category : Option String) (path : List String) : PyVal :=
  match category with
  | some c => if c != "" then .str c else .str (extract_category_from_path path)
  | Option.none => .str (extract_category_from_path path)

/-- `ScriptResolver.resolve_script` (lines 77-145): lockfile first, then
project tier, then user tier, then registry; the registry branch passes the
lockfile version to the lookup and carries the registry data through. -/
def resolve_script (env : ResolverEnv) (script_name : String)
    (category : Option String) : ResolveResult :=
  let lockfile_version := get_lockfile_version env.project_lock env.user_lock script_name
  match check_space env.project_scripts script_name category with
  | some project_path =>
      { location := some "project", path := some project_path,
        category := detectedCategory category project_path,
        subcategory := match extract_subcategory_from_path project_path with
                       | some s => .str s
                       | Option.none => .none,
        version := .none, lockfile_version := lockfile_version,
        registry_data := Option.none }
  | Option.none =>
    match check_space env.user_scripts script_name category with
    | some user_path =>
        { location := some "user", path := some user_path,
          category := detectedCategory category user_path,
          subcategory := match extract_subcategory_from_path user_path with
                         | some s => .str s
                         | Option.none => .none,
          version := .none, lockfile_version := lockfile_version,
          registry_data := Option.none }
    | Option.none =>
      match env.registry_get lockfile_version with
      | some reg =>
          { location := some "registry", path := Option.none,
            category := dictGet reg "category",
            subcategory := dictGet reg "subcategory",
            version := dictGet reg "version",
            lockfile_version := lockfile_version,
            registry_data := some reg }
      | Option.none =>
          { location := Option.none, path := Option.none,
            category := .none, subcategory := .none, version := .none,
            lockfile_version := lockfile_version, registry_data := Option.none }

/-- The resolution query a path satisfies: with a category, either the
direct `category/{name}.py` file or any file below the category directory
named `{name}.py`; without one, any file in the tier named `{name}.py`. -/
def matchesQuery (script_name : String) (category : Option String)
    (p : List String) : Prop :=
  match category with
  | some cat =>
      p = [cat, script_name ++ ".py"] ∨
      (p.head? = some cat ∧ 2 ≤ p.length ∧ matchesScriptFile script_name p = true)
  | Option.none => matchesScriptFile script_name p = true

instance (script_name : String) (category : Option String) (p : List String) :
    Decidable (matchesQuery script_name category p) := by
  unfold matchesQuery
  cases category <;> infer_instance

/-! ### `RunTool.execute` (tools/run.py, lines 1039-1675)

The executor is embedded as a function from its parameters and an
environment of oracles (the registry, the preflight collaborator, the
filesystem, pip, and the script being invoked) to a response value plus an
explicit trace of the side effects it performed, or an uncaught Python
exception (the source runs lines 1070-1245 outside its `try` block, so a
`ValueError` from dependency validation there, or from
`_download_script_with_deps`, escapes `execute`).

Human-facing message sentences, the `_summary`/`_preview` structures and
the traceback text are collapsed to markers: no claim depends on them.
Every key, code, status string, branch and effect of the source is kept. -/

/-- Externally visible side effects of one `execute` call, in order. -/
inductive Effect where
  | downloadScript (name : String)
  | downloadLib (name : String)
  | installPip (spec : String)
  | logExecutionStart
  | importScriptModule
  | callScriptFunction
  | spawnScriptSubprocess
  | logExecutionComplete
  | writeResultFile (path : String)
deriving Repr, DecidableEq

/-- A Python exception escaping `execute` uncaught. -/
inductive PyExc where
  | valueError (msg : String)
  | typeErr (msg : String)
  | depValueError (e : DepError)
deriving Repr, DecidableEq

/-- Outcome of `run_preflight` (an external collaborator). -/
structure PreflightResult where
  pass : Bool
  blockers : List PyVal
  warnings : List PyVal

/-- Which callable surface the loaded module exposes (lines 1296-1331). -/
inductive ScriptShape where
  | executeFn
  | mainWithParams
  | mainArgparse
  | neither
deriving Repr, DecidableEq

/-- Outcome of loading and invoking the script: a returned value, an
`ImportError`/`ModuleNotFoundError` reaching the outer handler (line 1605),
or any other exception (line 1628). -/
inductive InvocationOutcome where
  | ok (result : PyVal)
  | importError (missing_module : Option PyVal)
  | otherError (message : String) (typeName : String)
deriving Repr, DecidableEq

/-- Parameters of one `execute` call (line 1052-1057). -/
structure RunParams where
  script_name : String
  parameters : List (String × PyVal)
  dry_run : Bool
  auto_download : Bool

/-- The oracles `execute` runs against. -/
structure ExecEnv where
  /-- outcome of `self.resolver.resolve_script(script_name)` -/
  resolved : ResolveResult
  /-- outcome of re-resolving after an auto-download (line 1091) -/
  resolvedAfterDownload : ResolveResult
  /-- `self.registry.get_script(script_name)` (line 1108) -/
  registryScript : Option (List (String × PyVal))
  /-- outcome of `run_preflight` (line 1111) -/
  preflight : PreflightResult
  /-- whether `{lib}.py` exists in either tier's `lib/` directory -/
  libAvailable : String → Bool
  /-- `extract_script_metadata(script_path)["dependencies"]` (line 1148) -/
  fileDependencies : List PyVal
  /-- `__import__` success in the current process -/
  importOk : String → Bool
  /-- whether `pip install <spec>` exits 0 -/
  pipInstallOk : String → Bool
  /-- which callable surface the module exposes -/
  scriptShape : ScriptShape
  /-- what invoking the script produced -/
  invocation : InvocationOutcome
  /-- the id handed out by the execution logger -/
  executionId : String
  /-- `time.time() - start_time` when consulted -/
  elapsed : PyVal
  /-- `int(time.time())` used in auto-generated file names -/
  timestamp : Nat
  /-- the script-kiwi home directory path -/
  scriptKiwiHome : String

/-- The f-string rendering of a value, where the source interpolates one. -/
def pyFStr : PyVal → String
  | .str s => s
  | .int n => toString n
  | .none => "None"
  | .bool b => if b then "True" else "False"
  | .list _ => "[...]"
  | .dict _ => "\x7b...\x7d"

/-- The message text of the `ValueError` a `DepError` stands for. -/
def depErrorMessage : DepError → String
  | .notAList ty => "Dependencies must be a list, got " ++ ty
  | .entryNotADict i ty => "Dependency " ++ toString i ++ " must be a dict, got " ++ ty
  | .badNameField i ty =>
      "Dependency " ++ toString i ++ " name field must be a string, got " ++ ty
  | .jsonEncodedName i s =>
      "Dependency " ++ toString i ++ " name field appears to be JSON-encoded: " ++ s
  | .badVersionField i ty =>
      "Dependency " ++ toString i ++ " version field must be a string or None, got " ++ ty

mutual

/-- Approximate `len(json.dumps(data, default=str))`; only its comparison
with `MAX_RESPONSE_SIZE_BYTES` is consulted, and no claim depends on it. -/
def pyDumpLen : PyVal → Nat
  | .none => 4
  | .bool true => 4
  | .bool false => 5
  | .int n => (toString n).length
  | .str s => s.length + 2
  | .list xs => 2 + pyDumpLenList xs
  | .dict kvs => 2 + pyDumpLenFields kvs

def pyDumpLenList : List PyVal → Nat
  | [] => 0
  | x :: xs => pyDumpLen x + 2 + pyDumpLenList xs

def pyDumpLenFields : List (String × PyVal) → Nat
  | [] => 0
  | (k, v) :: kvs => k.length + 4 + pyDumpLen v + 2 + pyDumpLenFields kvs

end

def MAX_RESPONSE_SIZE_BYTES : Nat := 1000000

/-! The individual response dicts of `execute`, one per `return` site. -/

/-- Line 1068. -/
def respMissingName : PyVal := .dict [("error", .str "script_name is required")]

/-- Lines 1073-1084: `SCRIPT_NOT_FOUND`. -/
def respScriptNotFound (script_name : String) : PyVal :=
  .dict [("error", .dict
    [("code", .str "SCRIPT_NOT_FOUND"),
     ("message", .str ("Script " ++ script_name ++ " not found in any location")),
     ("details", .dict
       [("script_name", .str script_name),
        ("suggestion", .str "Use search to find available scripts")])])]

/-- Lines 1093-1106: `SCRIPT_NOT_FOUND_LOCALLY`, pre-download variant. -/
def respNotFoundLocally (script_name : String) : PyVal :=
  .dict [("error", .dict
    [("code", .str "SCRIPT_NOT_FOUND_LOCALLY"),
     ("message", .str ("Script " ++ script_name ++ " not found locally")),
     ("details", .dict
       [("script_name", .str script_name),
        ("suggestion", .str "Use load tool first, or set auto_download=true"),
        ("load_command", .str ("load " ++ script_name)),
        ("auto_download_command", .str ("run " ++ script_name ++ " auto_download"))])])]

/-- Lines 1121-1127: preflight blocked. -/
def respValidationFailed (pf : PreflightResult) : PyVal :=
  .dict [("status", .str "validation_failed"),
         ("errors", .list pf.blockers),
         ("warnings", .list pf.warnings)]

/-- Lines 376-386 (`_verify_lib_dependencies`): `MISSING_DEPENDENCIES`. -/
def respMissingLibs (script_name : String) (missing_libs : List PyVal) : PyVal :=
  .dict [("error", .dict
    [("code", .str "MISSING_DEPENDENCIES"),
     ("message", .str ("Script " ++ script_name ++
        " requires libraries that are not installed")),
     ("details", .dict
       [("missing_libs", .list missing_libs),
        ("suggestion", .str "Download script with dependencies"),
        ("command", .str ("load " ++ script_name ++ " download_to_user"))])])]

/-- Lines 1163-1168: corrupted registry dependency metadata. -/
def respMetadataCorruption (script_name : String) (e : DepError) : PyVal :=
  .dict [("status", .str "error"),
         ("error", .str ("Script has corrupted dependency metadata in registry: " ++
                         depErrorMessage e)),
         ("error_type", .str "metadata_corruption"),
         ("suggestion", .str ("Republish script " ++ script_name ++
                              " to fix corrupted metadata"))]

/-- Lines 1189-1200: some automatic installs failed. -/
def respInstallFailed (install : InstallResult) : PyVal :=
  .dict [("status", .str "error"),
         ("error", .str "Failed to install some dependencies"),
         ("error_type", .str "dependency_error"),
         ("details", .dict
           [("installed", .list (install.installed.map (fun d =>
               .dict [("name", .str d.name),
                      ("version", match d.version with
                                  | some v => .str v
                                  | Option.none => .none)]))),
            ("failed", .list (install.failed.map (fun n =>
               .dict [("name", .str n)]))),
            ("message", .str "Some dependencies could not be installed automatically.")])]

/-- Lines 1204-1212: the dry-run exit. -/
def respDryRun (script : Option (List (String × PyVal))) : PyVal :=
  .dict [("status", .str "validation_passed"),
         ("message", .str "Script is ready to execute"),
         ("estimated_cost", match script with
                            | some s => dictGet s "estimated_cost_usd"
                            | Option.none => .none),
         ("estimated_time", match script with
                            | some s => dictGet s "estimated_time_seconds"
                            | Option.none => .none)]

/-- Lines 1215-1227: `SCRIPT_NOT_FOUND_LOCALLY`, post-dry-run variant. -/
def respNotFoundLocally2 (script_name : String) (location : Option String) : PyVal :=
  .dict [("error", .dict
    [("code", .str "SCRIPT_NOT_FOUND_LOCALLY"),
     ("message", .str ("Script " ++ script_name ++ " not found locally")),
     ("details", .dict
       [("script_name", .str script_name),
        ("suggestion", .str ("Use load tool first: load " ++ script_name)),
        ("available_in", .str (match location with
                               | some l => l
                               | Option.none => "unknown"))])])]

/-- Lines 1616-1627: undeclared dependency (`ImportError` at call time). -/
def respDependencyError (missing_module : Option PyVal) (elapsed : PyVal) : PyVal :=
  .dict [("status", .str "error"),
         ("error", .str ("Missing dependency: " ++
            (match missing_module with
             | some m => pyFStr m
             | Option.none => "unknown"))),
         ("error_type", .str "dependency_error"),
         ("missing_module", match missing_module with
                            | some m => m
                            | Option.none => .none),
         ("suggestion", .str "This dependency was not declared. Add to script or install it"),
         ("data", .none),
         ("metadata", .dict [("duration_sec", elapsed), ("cost_usd", .int 0)])]

/-- Lines 1654-1675: the generic exception handler's response. -/
def respGenericError (script_name execution_id message typeName : String)
    (elapsed : PyVal) : PyVal :=
  .dict [("status", .str "error"),
         ("execution_id", .str execution_id),
         ("error", .str message),
         ("error_type", .str typeName),
         ("metadata", .dict [("duration_sec", elapsed), ("cost_usd", .int 0)]),
         ("troubleshooting", .list
           [.str "Check error message above",
            .str "Verify all required environment variables are set",
            .str "Use help tool for guidance",
            .str ("Script: " ++ script_name)]),
         ("traceback", .str "traceback")]

/-- `isinstance(result, dict)`. -/
def resultIsDict : PyVal → Bool
  | .dict _ => true
  | _ => false

/-- The key/value pairs of a dict result (`[]` otherwise). -/
def resultKvs : PyVal → List (String × PyVal)
  | .dict kvs => kvs
  | _ => []

/-- Lines 1345-1350: `script_status = result.get("status", "success")` when
the result is a truthy dict, else the default `"success"`. -/
def shapeScriptStatus (result : PyVal) : PyVal :=
  if pyTruthy result && resultIsDict result then
    dictGetD (resultKvs result) "status" (.str "success")
  else .str "success"

/-- Lines 1353-1354: the error string captured when the script reported
status `"error"` (`None` otherwise). -/
def shapeScriptError (result : PyVal) : PyVal :=
  if (pyTruthy result && resultIsDict result) &&
      (shapeScriptStatus result == .str "error") then
    pyOr (dictGet (resultKvs result) "error")
      (pyOr (dictGet (resultKvs result) "message") (.str "Unknown error"))
  else .none

/-- Lines 1344-1603: shaping of a returned script result into the success
response.  Keeps the source's status/error/data extraction, logging effect,
output-file decision and response keys; `round`, the `_summary`/`_preview`
structures and the `_debug` payloads are collapsed to markers. -/
def shapeSuccess (p : RunParams) (env : ExecEnv) (result : PyVal)
    (output_file save_output : PyVal) (effects : List Effect) : PyVal × List Effect :=
  let isDictResult := resultIsDict result
  let kvs := resultKvs result
  let active := pyTruthy result && isDictResult
  let script_status := shapeScriptStatus result
  let script_error := shapeScriptError result
  let result_data : PyVal :=
    if active then
      if script_status == .str "error" then
        .dict (kvs.filter (fun kv => kv.1 != "status" && kv.1 != "metadata"))
      else
        let d := dictGet kvs "data"
        let d := if d == PyVal.none then
            .dict (kvs.filter (fun kv =>
              kv.1 != "status" && kv.1 != "metadata" && kv.1 != "logs"))
          else d
        if !(pyTruthy d) then
          if hasKey result "businesses" then .dict [("businesses", dictGet kvs "businesses")]
          else if hasKey result "items" then .dict [("items", dictGet kvs "items")]
          else if hasKey result "results" then .dict [("results", dictGet kvs "results")]
          else if hasKey result "data" then .dict [("data", dictGet kvs "data")]
          else d
        else d
    else .none
  -- `result.get("metadata", {}).get(...)` raises AttributeError when the
  -- metadata value is not a dict; that lands in the generic handler.
  let mval := if active then dictGetD kvs "metadata" (.dict []) else .dict []
  match mval with
  | .dict mkvs =>
      let duration_sec :=
        let dv := dictGet mkvs "duration_sec"
        if dv == PyVal.none then env.elapsed else dv
      let cost_usd := pyOr (dictGetD mkvs "cost_usd" (.int 0)) (.int 0)
      let rows := dictGet mkvs "rows_processed"
      let api := dictGet mkvs "api_calls_made"
      let effects := effects ++ [Effect.logExecutionComplete]
      let result_size := pyDumpLen result_data
      let explicitFile := pyTruthy output_file
      let should_write_file :=
        explicitFile || (pyTruthy save_output && result_data != PyVal.none) ||
          result_size > MAX_RESPONSE_SIZE_BYTES
      let is_auto_save :=
        !explicitFile && !(pyTruthy save_output && result_data != PyVal.none) &&
          result_size > MAX_RESPONSE_SIZE_BYTES
      let output_path :=
        if !explicitFile then
          if is_auto_save then
            env.scriptKiwiHome ++ "/tmp/" ++ p.script_name ++ "_" ++
              toString env.timestamp ++ "_results.json"
          else
            env.scriptKiwiHome ++ "/outputs/" ++ p.script_name ++ "/" ++
              toString env.timestamp ++ "_results.json"
        else pyFStr output_file
      let effects :=
        if should_write_file then effects ++ [Effect.writeResultFile output_path]
        else effects
      let file_info : List (String × PyVal) :=
        [("_output_file", .str output_path),
         ("_file_size_bytes", .int (result_size : Int)),
         ("_message", .str "Results written to file"),
         ("_summary", .str "summary")]
      let result_data :=
        if should_write_file then
          if result_size ≤ MAX_RESPONSE_SIZE_BYTES then
            match result_data with
            | .dict okvs => .dict (okvs ++ file_info)
            | other => .dict (("_data", other) :: file_info)
          else
            .dict (file_info ++
              (if pyTruthy result_data then [("_preview", .str "preview")] else []))
        else result_data
      let metaKvs :=
        [("duration_sec", duration_sec), ("cost_usd", cost_usd)] ++
        (if should_write_file then
           [("output_file", .str output_path), ("output_saved", .bool true)]
         else []) ++
        (if rows != PyVal.none then [("rows_processed", rows)] else []) ++
        (if api != PyVal.none then [("api_calls_made", api)] else [])
      let debugCond := !(pyTruthy result_data) && pyTruthy result && isDictResult
      let logsCond := active && pyTruthy (dictGet kvs "logs")
      (.dict
        ([("status", script_status),
          ("execution_id", .str env.executionId),
          ("result", pyOr result_data (.dict [])),
          ("metadata", .dict metaKvs)] ++
         (if pyTruthy script_error then [("error", script_error)] else []) ++
         (if debugCond then [("_debug", .str "debug")] else []) ++
         (if logsCond then [("logs", dictGet kvs "logs")] else [])),
       effects)
  | _ =>
      (respGenericError p.script_name env.executionId
        "AttributeError on result metadata" "AttributeError" env.elapsed,
       effects ++ [Effect.logExecutionComplete])

/-- Lines 1229-1343 plus the `except` handlers: control-parameter
extraction, execution-start logging, module load, dispatch on the script's
callable surface, and the three invocation outcomes. -/
def executeScript (p : RunParams) (env : ExecEnv) (effects : List Effect) :
    PyVal × List Effect :=
  let output_file := dictGet p.parameters "_output_file"
  let save_output := dictGetD p.parameters "_save_output" (.bool true)
  let effects := effects ++ [Effect.logExecutionStart, Effect.importScriptModule]
  match env.scriptShape with
  | .neither =>
      (respGenericError p.script_name env.executionId
        ("Script " ++ p.script_name ++ " has no execute or main function")
        "ValueError" env.elapsed,
       effects ++ [Effect.logExecutionComplete])
  | shape =>
      let effects := effects ++
        [match shape with
         | .mainArgparse => Effect.spawnScriptSubprocess
         | _ => Effect.callScriptFunction]
      match env.invocation with
      | .importError m => (respDependencyError m env.elapsed, effects)
      | .otherError msg ty =>
          (respGenericError p.script_name env.executionId msg ty env.elapsed,
           effects ++ [Effect.logExecutionComplete])
      | .ok result => shapeSuccess p env result output_file save_output effects

/-- Lines 1204-1227: the dry-run exit, then the local-path requirement. -/
def executeDryRunGate (p : RunParams) (env : ExecEnv) (resolved : ResolveResult)
    (effects : List Effect) : PyVal × List Effect :=
  if p.dry_run then (respDryRun env.registryScript, effects)
  else if resolved.path.isNone then
    (respNotFoundLocally2 p.script_name resolved.location, effects)
  else executeScript p env effects

/-- Lines 1137-1177: the dependency list `execute` goes on to check —
file-extracted dependencies (only when a local path resolved), merged with
validated registry dependencies; a registry validation failure produces the
`metadata_corruption` response (`.error` side). -/
def mergedPipDependencies (p : RunParams) (env : ExecEnv)
    (resolved : ResolveResult) : Except PyVal (List PyVal) :=
  let pip_dependencies := if resolved.path.isSome then env.fileDependencies else []
  match env.registryScript with
  | some s =>
      if pyTruthy (dictGet s "dependencies") then
        match validate_dependencies (dictGet s "dependencies") with
        | .error e => .error (respMetadataCorruption p.script_name e)
        | .ok validated => .ok (mergeRegistryDeps pip_dependencies validated)
      else .ok pip_dependencies
  | Option.none => .ok pip_dependencies

/-- Lines 1179-1202 (after the merge): the missing check and automatic
installation.  `_check_pip_dependencies` is called outside the `try`
block, so a `ValueError` from it escapes `execute` — the `.error` case. -/
def executePip (p : RunParams) (env : ExecEnv) (resolved : ResolveResult)
    (effects : List Effect) : Except PyExc (PyVal × List Effect) :=
  match mergedPipDependencies p env resolved with
  | .error resp => .ok (resp, effects)
  | .ok pip_deps =>
      if !pip_deps.isEmpty then
        match check_pip_dependencies env.importOk pip_deps with
        | .error e => .error (.depValueError e)
        | .ok missing =>
            if !missing.isEmpty then
              let pkgs : List Dep := missing.map (fun m => ⟨m.name, m.version⟩)
              let effects := effects ++ pkgs.map (fun d =>
                Effect.installPip (run_install_package_spec d.name d.version))
              let installResult := install_pip_dependencies env.pipInstallOk pkgs
              if !installResult.failed.isEmpty then
                .ok (respInstallFailed installResult, effects)
              else .ok (executeDryRunGate p env resolved effects)
            else .ok (executeDryRunGate p env resolved effects)
      else .ok (executeDryRunGate p env resolved effects)

/-- Lines 1129-1135: the library-dependency verification gate. -/
def executeLibs (p : RunParams) (env : ExecEnv) (resolved : ResolveResult)
    (effects : List Effect) : Except PyExc (PyVal × List Effect) :=
  match env.registryScript with
  | some s =>
      let required_libs := dictGetD s "required_libs" (.list [])
      if pyTruthy required_libs then
        match required_libs with
        | .list libs =>
            let missing := libs.filter (fun l => !(env.libAvailable (pyFStr l)))
            if !missing.isEmpty then
              .ok (respMissingLibs p.script_name missing, effects)
            else executePip p env resolved effects
        | _ => .error (.typeErr "required_libs is not a list")
      else executePip p env resolved effects
  | Option.none => executePip p env resolved effects

/-- Lines 1108-1127: registry metadata fetch and the preflight gate (the
preflight runs only when the registry knows the script). -/
def executeFrom (p : RunParams) (env : ExecEnv) (resolved : ResolveResult)
    (effects : List Effect) : Except PyExc (PyVal × List Effect) :=
  match env.registryScript with
  | some _ =>
      if !env.preflight.pass then .ok (respValidationFailed env.preflight, effects)
      else executeLibs p env resolved effects
  | Option.none => executeLibs p env resolved effects

/-- `RunTool.execute` (lines 1039-1675). -/
def execute (p : RunParams) (env : ExecEnv) : Except PyExc (PyVal × List Effect) :=
  if p.script_name == "" then .ok (respMissingName, [])
  else
    let resolved := env.resolved
    if resolved.location.isNone then .ok (respScriptNotFound p.script_name, [])
    else if resolved.location == some "registry" && resolved.path.isNone then
      if p.auto_download then
        -- `_download_script_with_deps` raises ValueError (uncaught here)
        -- when the registry lacks the script or its content.
        match env.registryScript with
        | Option.none =>
            .error (.valueError ("Script " ++ p.script_name ++ " not found in registry"))
        | some s =>
            if !(pyTruthy (dictGet s "content")) then
              .error (.valueError ("Script " ++ p.script_name ++ " not found in registry"))
            else
              let libEffects := match dictGetD s "required_libs" (.list []) with
                | .list libs => libs.map (fun l => Effect.downloadLib (pyFStr l))
                | _ => []
              executeFrom p env env.resolvedAfterDownload
                ([Effect.downloadScript p.script_name] ++ libEffects)
      else .ok (respNotFoundLocally p.script_name, [])
    else executeFrom p env resolved []

/-! ### Stream rewiring in `RunTool._run_function_script`
(tools/run.py, lines 390-525)

The states the function manipulates — `sys.stderr` and the `stream`
attribute of every `logging.StreamHandler` — are modelled explicitly;
streams are identified by numbers, handlers by a handler id.  The freshly
constructed `DualStderr` object is a stream id the caller supplies
(`dual`), fresh by construction in the source.  The script function is an
arbitrary state transformer that may itself read or mutate the streams and
either return a value, raise `ImportError`/`ModuleNotFoundError` (which the
function re-raises as `RuntimeError`), or raise anything else; the
`finally` block runs in every case. -/

/-- One `logging.StreamHandler`: its identity and its current stream. -/
structure LogHandler where
  hid : Nat
  stream : Nat
deriving Repr, DecidableEq

/-- The mutable state `_run_function_script` touches. -/
structure LogState where
  stderr : Nat
  handlers : List LogHandler
deriving Repr, DecidableEq

/-- How the invoked script function ends. -/
inductive FuncOutcome where
  | ret (v : PyVal)
  | importError (missing : String)
  | raises (msg : String)
deriving Repr, DecidableEq

/-- The handler scan (lines 488-505): every `StreamHandler` whose stream is
the saved `original_stderr` — or the current `sys.stderr`, which at scan
time is already the dual writer — is pointed at the dual writer, and
`(handler, original_stderr)` is recorded for restoration. -/
def rewireHandlers (original dual : Nat) (hs : List LogHandler) : List LogHandler :=
  hs.map (fun h =>
    if h.stream == original || h.stream == dual then { h with stream := dual } else h)

/-- The restoration records accumulated by the scan. -/
def rewireRecords (original dual : Nat) (hs : List LogHandler) : List (Nat × Nat) :=
  hs.filterMap (fun h =>
    if h.stream == original || h.stream == dual then some (h.hid, original)
    else Option.none)

/-- The `finally` block's handler loop (lines 520-521): each recorded
handler's stream is set back to the recorded original stream. -/
def restoreHandlers (records : List (Nat × Nat)) (hs : List LogHandler) :
    List LogHandler :=
  records.foldl (fun acc r =>
    acc.map (fun h => if h.hid == r.1 then { h with stream := r.2 } else h)) hs

/-- `RunTool._run_function_script`: with streaming off the function is
called directly; with streaming on, `sys.stderr` is replaced by the dual
writer, matching handlers are rewired, the function runs, an import error
is re-raised as `RuntimeError`, and the `finally` block restores
`sys.stderr` and every recorded handler unconditionally. -/
def run_function_script (dual : Nat) (func : LogState → FuncOutcome × LogState)
    (stream_logs : Bool) (st : LogState) : FuncOutcome × LogState :=
  if !stream_logs then func st
  else
    let original := st.stderr
    let st2 : LogState :=
      { stderr := dual, handlers := rewireHandlers original dual st.handlers }
    let records := rewireRecords original dual st.handlers
    let r := func st2
    let outcome := match r.1 with
      | .importError m => .raises ("Missing dependency: " ++ m ++
          ". Add to script dependencies or install manually.")
      | o => o
    (outcome,
     { stderr := original, handlers := restoreHandlers records r.2.handlers })

/-- The stream a given handler id currently points at. -/
def streamOf (hid : Nat) (hs : List LogHandler) : Option Nat :=
  (hs.find? (fun h => h.hid == hid)).map (fun h => h.stream)

/-! ## Theorems -/

/-! ### Truncation lemmas -/

mutual

theorem truncate_withinCaps_fix (mi ms : Nat) :
    ∀ (v : PyVal) (p : String), withinCaps mi ms v = true →
      truncate_large_response mi ms p v = (v, [])
  | .none, _, _ => by simp [truncate_large_response]
  | .bool _, _, _ => by simp [truncate_large_response]
  | .int _, _, _ => by simp [truncate_large_response]
  | .str s, p, h => by
      simp [withinCaps] at h
      simp [truncate_large_response, Nat.not_lt.mpr h]
  | .list xs, p, h => by
      simp [withinCaps] at h
      obtain ⟨h1, h2⟩ := h
      simp [truncate_large_response, Nat.not_lt.mpr h1,
        truncListItems_withinCaps_fix mi ms xs h2 p 0]
  | .dict kvs, p, h => by
      simp [withinCaps] at h
      simp [truncate_large_response, truncDictItems_withinCaps_fix mi ms kvs h p]

theorem truncListItems_withinCaps_fix (mi ms : Nat) :
    ∀ (xs : List PyVal), withinCapsList mi ms xs = true → ∀ (p : String) (i : Nat),
      truncListItems mi ms p i xs = (xs, [])
  | [], _, _, _ => by simp [truncListItems]
  | x :: xs, h, p, i => by
      simp [withinCapsList] at h
      simp [truncListItems, truncate_withinCaps_fix mi ms x _ h.1,
        truncListItems_withinCaps_fix mi ms xs h.2 p (i + 1)]

theorem truncDictItems_withinCaps_fix (mi ms : Nat) :
    ∀ (kvs : List (String × PyVal)), withinCapsFields mi ms kvs = true → ∀ (p : String),
      truncDictItems mi ms p kvs = (kvs, [])
  | [], _, _ => by simp [truncDictItems]
  | (k, v) :: kvs, h, p => by
      simp [withinCapsFields] at h
      simp [truncDictItems, truncate_withinCaps_fix mi ms v _ h.1,
        truncDictItems_withinCaps_fix mi ms kvs h.2 p]

end

mutual

theorem truncate_fst_path_indep (mi ms : Nat) :
    ∀ (v : PyVal) (p q : String),
      (truncate_large_response mi ms p v).1 = (truncate_large_response mi ms q v).1
  | .none, _, _ => by simp [truncate_large_response]
  | .bool _, _, _ => by simp [truncate_large_response]
  | .int _, _, _ => by simp [truncate_large_response]
  | .str s, p, q => by
      by_cases h : s.length > ms <;> simp [truncate_large_response, h]
  | .list xs, p, q => by
      by_cases h : xs.length > mi <;>
        simp [truncate_large_response, h, truncListItems_fst_path_indep mi ms xs p q 0 0]
  | .dict kvs, p, q => by
      simp [truncate_large_response, truncDictItems_fst_path_indep mi ms kvs p q]

theorem truncListItems_fst_path_indep (mi ms : Nat) :
    ∀ (xs : List PyVal) (p q : String) (i j : Nat),
      (truncListItems mi ms p i xs).1 = (truncListItems mi ms q j xs).1
  | [], _, _, _, _ => by simp [truncListItems]
  | x :: xs, p, q, i, j => by
      simp [truncListItems,
        truncListItems_fst_path_indep mi ms xs p q (i + 1) (j + 1)]
      exact truncate_fst_path_indep mi ms x _ _

theorem truncDictItems_fst_path_indep (mi ms : Nat) :
    ∀ (kvs : List (String × PyVal)) (p q : String),
      (truncDictItems mi ms p kvs).1 = (truncDictItems mi ms q kvs).1
  | [], _, _ => by simp [truncDictItems]
  | (k, v) :: kvs, p, q => by
      simp [truncDictItems, truncDictItems_fst_path_indep mi ms kvs p q]
      exact truncate_fst_path_indep mi ms v _ _

end

/-- The per-element loop returns exactly the elementwise truncations. -/
theorem truncListItems_fst_map (mi ms : Nat) (p : String) :
    ∀ (xs : List PyVal) (i : Nat),
      (truncListItems mi ms p i xs).1 =
        xs.map (fun x => (truncate_large_response mi ms "" x).1)
  | [], _ => by simp [truncListItems]
  | x :: xs, i => by
      simp [truncListItems, truncListItems_fst_map mi ms p xs (i + 1),
        truncate_fst_path_indep mi ms x _ ""]

/-- The per-key loop keeps the key sequence unchanged. -/
theorem truncDictItems_fst_keys (mi ms : Nat) (p : String) :
    ∀ (kvs : List (String × PyVal)),
      (truncDictItems mi ms p kvs).1.map Prod.fst = kvs.map Prod.fst
  | [] => by simp [truncDictItems]
  | (k, v) :: kvs => by
      simp [truncDictItems, truncDictItems_fst_keys mi ms p kvs]

/-- C5, counterexample.  `truncate_large_response` is *not* idempotent: with
an item cap of 1, the list `[[1,2],[3,4]]` truncates once to `[[1,2]]`
(the over-cap branch returns the prefix without recursing into it), but a
second application recurses into the surviving element and yields `[[1]]`. -/
theorem C5_counterexample :
    (truncate_large_response 1 100 ""
        ((truncate_large_response 1 100 ""
          (.list [.list [.int 1, .int 2], .list [.int 3, .int 4]])).1)).1 ≠
      (truncate_large_response 1 100 ""
        (.list [.list [.int 1, .int 2], .list [.int 3, .int 4]])).1 := by decide

/-- C5 (amended): truncation is not idempotent on arbitrary values, but
every value already within the caps — no array longer than the item cap,
no string longer than the character cap, anywhere — is a fixed point of
`truncate_large_response`, and on such values applying the truncation twice
equals applying it once. -/
theorem C5_within_caps_fixed_point (max_items max_string : Nat) (path : String)
    (v : PyVal) (h : withinCaps max_items max_string v = true) :
    truncate_large_response max_items max_string path v = (v, []) ∧
    (truncate_large_response max_items max_string path
        (truncate_large_response max_items max_string path v).1).1 =
      (truncate_large_response max_items max_string path v).1 := by
  have hfix := truncate_withinCaps_fix max_items max_string v path h
  exact ⟨hfix, by simp [hfix]⟩

theorem C5_within_caps_fixed_point_witness :
    withinCaps 2 10 (.list [.int 1, .str "ok"]) = true ∧
    truncate_large_response 2 10 "" (.list [.int 1, .str "ok"]) =
      (.list [.int 1, .str "ok"], []) :=
  ⟨by decide, (C5_within_caps_fixed_point 2 10 "" _ (by decide)).1⟩

/-- C10, counterexample.  For a list longer than the item cap the result is
*not* the recursion applied to the surviving prefix: with cap 1,
`[[1,2],[3,4]]` returns `[[1,2]]` while the elementwise truncation of the
surviving prefix would be `[[1]]`. -/
theorem C10_counterexample :
    (truncate_large_response 1 100 ""
        (.list [.list [.int 1, .int 2], .list [.int 3, .int 4]])).1 ≠
      .list ((List.take 1 [PyVal.list [.int 1, .int 2], PyVal.list [.int 3, .int 4]]).map
        (fun v => (truncate_large_response 1 100 "" v).1)) := by decide

/-- C10 (amended): for every dict input the result is a dict with exactly
the same keys in the same order; for every list input the result is a list
of length `min (length) (item cap)`, equal to the elementwise truncation
when the input is within the cap, and equal to the bare prefix — without
recursion into the surviving elements — when the input is over the cap. -/
theorem C10_truncation_structure (max_items max_string : Nat) (path : String) :
    (∀ kvs : List (String × PyVal), ∃ kvs2,
        (truncate_large_response max_items max_string path (.dict kvs)).1 = .dict kvs2 ∧
        kvs2.map Prod.fst = kvs.map Prod.fst) ∧
    (∀ xs : List PyVal, ∃ ys,
        (truncate_large_response max_items max_string path (.list xs)).1 = .list ys ∧
        ys.length = min xs.length max_items ∧
        (xs.length ≤ max_items →
          ys = xs.map (fun x => (truncate_large_response max_items max_string "" x).1)) ∧
        (max_items < xs.length → ys = xs.take max_items)) := by
  constructor
  · intro kvs
    exact ⟨(truncDictItems max_items max_string path kvs).1,
      by simp [truncate_large_response], truncDictItems_fst_keys _ _ _ kvs⟩
  · intro xs
    by_cases h : xs.length > max_items
    · refine ⟨xs.take max_items, ?_, ?_, ?_, ?_⟩
      · simp [truncate_large_response, h]
      · simp [List.length_take]; omega
      · intro hle; omega
      · intro _; rfl
    · refine ⟨(truncListItems max_items max_string path 0 xs).1, ?_, ?_, ?_, ?_⟩
      · simp [truncate_large_response, h]
      · rw [truncListItems_fst_map]; simp; omega
      · intro _; rw [truncListItems_fst_map]
      · intro hlt; omega

theorem C10_truncation_structure_witness :
    (truncate_large_response 1 10 "" (.list [.int 7, .int 8])).1 =
      .list (List.take 1 [PyVal.int 7, PyVal.int 8]) := by
  obtain ⟨ys, h1, _, _, h4⟩ :=
    (C10_truncation_structure 1 10 "").2 [PyVal.int 7, PyVal.int 8]
  rw [h1, h4 (by simp)]

/-- C6, counterexample.  `RunTool._install_pip_dependencies` — the
installer `execute` uses for missing script dependencies — concatenates a
bare version number unchanged instead of building `name==version`:
installing `requests` with version `2.31.0` constructs the spec
`requests2.31.0`, not `requests==2.31.0`. -/
theorem C6_counterexample :
    run_install_package_spec "requests" (some "2.31.0") = "requests2.31.0" ∧
    run_install_package_spec "requests" (some "2.31.0") ≠ "requests==2.31.0" := by
  decide

/-- C6 (amended): `EnvManager.install_packages` constructs specs exactly as
the claim states — bare name without a version, `name==version` for a bare
version number, and `name` followed by the version string unchanged when it
starts with a comparison operator — while `RunTool._install_pip_dependencies`
(the installer invoked by `execute`) concatenates name and version string
unchanged whenever any version is present, agreeing with the rule only for
operator-led version strings and for absent versions. -/
theorem C6_package_spec_rules :
    (∀ n : String, env_install_package_spec n Option.none = n) ∧
    (∀ (n v : String), v ≠ "" →
        (strStartsWith v ">=" || strStartsWith v "<=" || strStartsWith v "==" ||
         strStartsWith v "~=" || strStartsWith v "!=") = true →
        env_install_package_spec n (some v) = n ++ v) ∧
    (∀ (n v : String), v ≠ "" →
        (strStartsWith v ">=" || strStartsWith v "<=" || strStartsWith v "==" ||
         strStartsWith v "~=" || strStartsWith v "!=") = false →
        env_install_package_spec n (some v) = n ++ "==" ++ v) ∧
    (∀ (n v : String), v ≠ "" → run_install_package_spec n (some v) = n ++ v) ∧
    (∀ n : String, run_install_package_spec n Option.none = n) := by
  refine ⟨fun n => rfl, ?_, ?_, ?_, fun n => rfl⟩
  · intro n v hv hop
    have hb : (v != "") = true := by simpa [bne_iff_ne] using hv
    simp [env_install_package_spec, hb, hop]
  · intro n v hv hop
    have hb : (v != "") = true := by simpa [bne_iff_ne] using hv
    simp [env_install_package_spec, hb, hop]
  · intro n v hv
    have hb : (v != "") = true := by simpa [bne_iff_ne] using hv
    simp [run_install_package_spec, hb]

theorem C6_package_spec_rules_witness :
    env_install_package_spec "requests" (some ">=2.0") = "requests>=2.0" ∧
    env_install_package_spec "requests" (some "2.0") = "requests==2.0" ∧
    run_install_package_spec "requests" (some "2.0") = "requests2.0" :=
  ⟨C6_package_spec_rules.2.1 "requests" ">=2.0" (by decide) (by decide),
   C6_package_spec_rules.2.2.1 "requests" "2.0" (by decide) (by decide),
   C6_package_spec_rules.2.2.2.1 "requests" "2.0" (by decide)⟩

/-- C2: at the collision input the merge in `RunTool.execute` keeps the
file-extracted entry and drops the registry entry — the file-extracted
dependency `requests` (version `None`) survives unchanged even though the
registry declares `requests` with version `==2.31.0`, contradicting the
claim (and the source's own comment) that registry entries take precedence
on name collision. -/
theorem C2_merge_keeps_file_entry :
    mergeRegistryDeps [.dict [("name", .str "requests"), ("version", .none)]]
        [⟨"requests", some "==2.31.0"⟩] =
      [.dict [("name", .str "requests"), ("version", .none)]] := by decide

/-! ### Dependency-validation lemmas -/

theorem validateFrom_ok_length :
    ∀ (ds : List PyVal) (i : Nat) (out : List Dep),
      validateFrom i ds = .ok out → out.length = ds.length
  | [], i, out => by
      intro h
      simp [validateFrom] at h
      subst h
      rfl
  | d :: ds, i, out => by
      intro h
      simp only [validateFrom] at h
      cases he : validateEntry i d with
      | error e => rw [he] at h; exact absurd h (by simp)
      | ok v =>
          rw [he] at h
          cases hr : validateFrom (i + 1) ds with
          | error e => rw [hr] at h; exact absurd h (by simp)
          | ok vs =>
              rw [hr] at h
              simp at h
              subst h
              simp [validateFrom_ok_length ds (i + 1) vs hr]

theorem validateFrom_ok_get :
    ∀ (ds : List PyVal) (i : Nat) (out : List Dep),
      validateFrom i ds = .ok out →
      ∀ (j : Nat) (d : PyVal), ds[j]? = some d →
        ∃ dep, out[j]? = some dep ∧ validateEntry (i + j) d = .ok dep
  | [], i, out => by
      intro _ j d hd
      simp at hd
  | d :: ds, i, out => by
      intro h j e hd
      simp only [validateFrom] at h
      cases he : validateEntry i d with
      | error _ => rw [he] at h; exact absurd h (by simp)
      | ok v =>
          rw [he] at h
          cases hr : validateFrom (i + 1) ds with
          | error _ => rw [hr] at h; exact absurd h (by simp)
          | ok vs =>
              rw [hr] at h
              simp at h
              subst h
              cases j with
              | zero =>
                  simp at hd
                  subst hd
                  exact ⟨v, by simp, by simpa using he⟩
              | succ j =>
                  simp at hd
                  obtain ⟨dep, h1, h2⟩ := validateFrom_ok_get ds (i + 1) vs hr j e hd
                  exact ⟨dep, by simpa using h1, by
                    have : i + 1 + j = i + (j + 1) := by omega
                    rwa [this] at h2⟩

theorem validateFrom_error_at :
    ∀ (ds : List PyVal) (i k : Nat) (dk : PyVal) (e : DepError),
      (∀ (j : Nat) (d : PyVal), j < k → ds[j]? = some d →
        ∃ dep, validateEntry (i + j) d = .ok dep) →
      ds[k]? = some dk → validateEntry (i + k) dk = .error e →
      validateFrom i ds = .error e
  | [], i, k, dk, e => by
      intro _ hk
      simp at hk
  | d :: ds, i, k, dk, e => by
      intro hok hk he
      cases k with
      | zero =>
          simp at hk
          subst hk
          simp only [validateFrom]
          rw [show i + 0 = i from rfl] at he
          rw [he]
      | succ k =>
          obtain ⟨dep, hdep⟩ := hok 0 d (by omega) (by simp)
          simp only [validateFrom]
          rw [show i + 0 = i from rfl] at hdep
          rw [hdep]
          have hrec : validateFrom (i + 1) ds = .error e := by
            apply validateFrom_error_at ds (i + 1) k dk e
            · intro j dj hj hdj
              have := hok (j + 1) dj (by omega) (by simpa using hdj)
              rwa [show i + (j + 1) = i + 1 + j by omega] at this
            · simpa using hk
            · rwa [show i + (k + 1) = i + 1 + k by omega] at he
          rw [hrec]

/-- A non-empty string whose name starts with `{` fails the per-entry
validation as JSON-encoded corruption, naming that entry's index. -/
theorem validateEntry_jsonEncoded (i : Nat) (kvs : List (String × PyVal)) (s : String)
    (hname : dictGet kvs "name" = .str s) (hne : s ≠ "")
    (hstart : strStartsWith s "\x7b" = true) :
    validateEntry i (.dict kvs) = .error (.jsonEncodedName i s) := by
  have h1 : (s == "") = false := by simpa using hne
  simp [validateEntry, hname, h1, hstart]

/-- C4 (confirmed): `_validate_dependencies` fails with an error identifying
the offending index and field — `[{"name": 123}]` fails naming index 0 and
the name field; every entry with a non-empty name starting with `{` fails as
JSON-encoded corruption naming its index (and a list whose first offender is
such an entry fails with exactly that error); and every well-formed list is
returned normalized, in order, with the same length. -/
theorem C4_validate_dependencies :
    (validate_dependencies (.list [.dict [("name", .int 123)]]) =
       .error (.badNameField 0 "int")) ∧
    (∀ (i : Nat) (kvs : List (String × PyVal)) (s : String),
        dictGet kvs "name" = .str s → s ≠ "" → strStartsWith s "\x7b" = true →
        validateEntry i (.dict kvs) = .error (.jsonEncodedName i s)) ∧
    (∀ (ds : List PyVal) (k : Nat) (kvs : List (String × PyVal)) (s : String),
        (∀ (j : Nat) (d : PyVal), j < k → ds[j]? = some d →
          ∃ dep, validateEntry j d = .ok dep) →
        ds[k]? = some (.dict kvs) → dictGet kvs "name" = .str s → s ≠ "" →
        strStartsWith s "\x7b" = true →
        validate_dependencies (.list ds) = .error (.jsonEncodedName k s)) ∧
    (∀ (ds : List PyVal) (out : List Dep),
        validate_dependencies (.list ds) = .ok out →
        out.length = ds.length ∧
        ∀ (j : Nat) (d : PyVal), ds[j]? = some d →
          ∃ dep, out[j]? = some dep ∧ validateEntry j d = .ok dep) := by
  refine ⟨rfl, validateEntry_jsonEncoded, ?_, ?_⟩
  · intro ds k kvs s hok hk hname hne hstart
    have he := validateEntry_jsonEncoded k kvs s hname hne hstart
    simp only [validate_dependencies]
    exact validateFrom_error_at ds 0 k (.dict kvs) _
      (fun j d hj hd => by simpa using hok j d hj hd)
      hk (by simpa using he)
  · intro ds out h
    simp only [validate_dependencies] at h
    refine ⟨validateFrom_ok_length ds 0 out h, ?_⟩
    intro j d hd
    have := validateFrom_ok_get ds 0 out h j d hd
    simpa using this

theorem C4_validate_dependencies_witness :
    validate_dependencies
        (.list [.dict [("name", .str "requests")],
                .dict [("name", .str "\x7bcorrupt")]]) =
      .error (.jsonEncodedName 1 "\x7bcorrupt") := by
  apply C4_validate_dependencies.2.2.1 _ 1 _ "\x7bcorrupt"
  · intro j d hj hd
    have hj0 : j = 0 := by omega
    subst hj0
    simp at hd
    subst hd
    exact ⟨⟨"requests", Option.none⟩, rfl⟩
  · rfl
  · rfl
  · decide
  · decide

/-! ### Resolver lemmas -/

/-- `check_space` finds a file exactly when the tier holds one matching the
resolution query. -/
theorem check_space_isSome_iff (tier : List (List String)) (name : String)
    (cat : Option String) :
    (check_space tier name cat).isSome ↔ ∃ p ∈ tier, matchesQuery name cat p := by
  cases cat with
  | none =>
      simp only [check_space, matchesQuery]
      rw [List.find?_isSome]
  | some c =>
      by_cases hd : [c, name ++ ".py"] ∈ tier
      · have hc : tier.contains [c, name ++ ".py"] = true :=
          List.elem_eq_true_of_mem hd
        simp only [check_space, hc, if_true]
        simp only [Option.isSome_some, true_iff]
        exact ⟨[c, name ++ ".py"], hd, Or.inl rfl⟩
      · have hc : tier.contains [c, name ++ ".py"] = false := by
          by_contra hcon
          have : tier.contains [c, name ++ ".py"] = true := by
            revert hcon; cases tier.contains [c, name ++ ".py"] <;> simp
          exact hd (List.mem_of_elem_eq_true this)
        by_cases ha : tier.any (fun p => p.head? == some c) = true
        · simp only [check_space, hc, Bool.false_eq_true, if_false, ha, if_true]
          rw [List.find?_isSome]
          constructor
          · rintro ⟨p, hp, hpred⟩
            simp only [Bool.and_eq_true, beq_iff_eq, decide_eq_true_eq] at hpred
            exact ⟨p, hp, Or.inr ⟨hpred.1.1, hpred.1.2, hpred.2⟩⟩
          · rintro ⟨p, hp, hq⟩
            rcases hq with heq | ⟨h1, h2, h3⟩
            · exact absurd (heq ▸ hp) hd
            · exact ⟨p, hp, by simp [h1, h2, h3]⟩
        · simp only [check_space, hc, Bool.false_eq_true, if_false, ha, if_false]
          simp only [Option.isSome_none, Bool.false_eq_true, false_iff]
          rintro ⟨p, hp, hq⟩
          have hhead : p.head? = some c := by
            rcases hq with heq | ⟨h1, _, _⟩
            · rw [heq]; rfl
            · exact h1
          exact ha (by
            rw [List.any_eq_true]
            exact ⟨p, hp, by simp [hhead]⟩)

/-- C1 (confirmed): resolution is strictly Project > User > Registry — a
matching file in the Project tier always yields the Project location (for
every lockfile content and registry state, i.e. regardless of version
metadata); the User location is returned exactly when the Project tier has
no match and the User tier does; a registry result is only returned when
neither tier has a matching file. -/
theorem C1_resolution_priority (env : ResolverEnv) (script_name : String)
    (category : Option String) :
    ((∃ p ∈ env.project_scripts, matchesQuery script_name category p) →
       (resolve_script env script_name category).location = some "project") ∧
    ((¬ ∃ p ∈ env.project_scripts, matchesQuery script_name category p) →
       (∃ p ∈ env.user_scripts, matchesQuery script_name category p) →
       (resolve_script env script_name category).location = some "user") ∧
    ((resolve_script env script_name category).location = some "user" →
       ¬ ∃ p ∈ env.project_scripts, matchesQuery script_name category p) ∧
    ((resolve_script env script_name category).location = some "registry" →
       (¬ ∃ p ∈ env.project_scripts, matchesQuery script_name category p) ∧
       (¬ ∃ p ∈ env.user_scripts, matchesQuery script_name category p)) := by
  have hpiff := check_space_isSome_iff env.project_scripts script_name category
  have huiff := check_space_isSome_iff env.user_scripts script_name category
  cases hp : check_space env.project_scripts script_name category with
  | some pp =>
      refine ⟨fun _ => by simp [resolve_script, hp], ?_, ?_, ?_⟩
      · intro hnp _
        exact absurd (hpiff.mp (by simp [hp])) hnp
      · intro hloc
        simp [resolve_script, hp] at hloc
      · intro hloc
        simp [resolve_script, hp] at hloc
  | none =>
      have hnp : ¬ ∃ p ∈ env.project_scripts, matchesQuery script_name category p := by
        intro hex
        have := hpiff.mpr hex
        rw [hp] at this
        simp at this
      cases hu : check_space env.user_scripts script_name category with
      | some up =>
          refine ⟨?_, fun _ _ => by simp [resolve_script, hp, hu], fun _ => hnp, ?_⟩
          · intro hex
            exact absurd hex hnp
          · intro hloc
            simp [resolve_script, hp, hu] at hloc
      | none =>
          have hnu : ¬ ∃ p ∈ env.user_scripts, matchesQuery script_name category p := by
            intro hex
            have := huiff.mpr hex
            rw [hu] at this
            simp at this
          refine ⟨fun hex => absurd hex hnp, fun _ hex => absurd hex hnu, fun _ => hnp,
            fun _ => ⟨hnp, hnu⟩⟩

/-- A concrete environment: the same script name exists in both tiers. -/
def resolverEnvW : ResolverEnv :=
  { project_scripts := [["scraping", "google-maps", "example.py"]],
    user_scripts := [["scraping", "example.py"]],
    project_lock := .absent, user_lock := .absent,
    registry_get := fun _ => Option.none }

theorem C1_resolution_priority_witness :
    (resolve_script resolverEnvW "example" Option.none).location = some "project" :=
  (C1_resolution_priority resolverEnvW "example" Option.none).1
    ⟨["scraping", "google-maps", "example.py"], by decide, by decide⟩

/-- C9 (confirmed): `_get_lockfile_version` never lets an exception escape —
its outcome is always `.ok` — and it returns `None` when no lockfile
exists, when the chosen lockfile is unreadable or malformed JSON, when the
document or its `scripts` value is not an object, and when the `scripts`
object lacks an entry for the name; and `resolve_script` always carries
exactly that value through as `lockfile_version`, whichever branch it
takes. -/
theorem C9_get_lockfile_version_never_raises (pl ul : FileRead) (script_name : String) :
    (∃ v, get_lockfile_version_exc pl ul script_name = .ok v) ∧
    (chosenLockfile pl ul = .absent →
       get_lockfile_version pl ul script_name = .none) ∧
    (chosenLockfile pl ul = .unreadable →
       get_lockfile_version pl ul script_name = .none) ∧
    (∀ doc, chosenLockfile pl ul = .content doc → (∀ kvs, doc ≠ .dict kvs) →
       get_lockfile_version pl ul script_name = .none) ∧
    (∀ kvs, chosenLockfile pl ul = .content (.dict kvs) →
       (∀ skvs, dictGetD kvs "scripts" (.dict []) ≠ .dict skvs) →
       get_lockfile_version pl ul script_name = .none) ∧
    (∀ kvs skvs, chosenLockfile pl ul = .content (.dict kvs) →
       dictGetD kvs "scripts" (.dict []) = .dict skvs →
       skvs.find? (fun kv => kv.1 == script_name) = Option.none →
       get_lockfile_version pl ul script_name = .none) ∧
    (∀ (env : ResolverEnv) (cat : Option String),
       env.project_lock = pl → env.user_lock = ul →
       (resolve_script env script_name cat).lockfile_version =
         get_lockfile_version pl ul script_name) := by
  refine ⟨?_, ?_, ?_, ?_, ?_, ?_, ?_⟩
  · cases hc : chosenLockfile pl ul with
    | absent => exact ⟨.none, by simp [get_lockfile_version_exc, hc]⟩
    | unreadable => exact ⟨.none, by simp [get_lockfile_version_exc, hc]⟩
    | content doc =>
        cases hb : lockfile_lookup_body doc script_name with
        | ok v => exact ⟨v, by simp [get_lockfile_version_exc, hc, hb]⟩
        | error e => exact ⟨.none, by simp [get_lockfile_version_exc, hc, hb]⟩
  · intro hc
    simp [get_lockfile_version, get_lockfile_version_exc, hc]
  · intro hc
    simp [get_lockfile_version, get_lockfile_version_exc, hc]
  · intro doc hc hnd
    have hb : lockfile_lookup_body doc script_name = .error "AttributeError" := by
      cases doc with
      | dict kvs => exact absurd rfl (hnd kvs)
      | none => rfl
      | bool b => rfl
      | int n => rfl
      | str s => rfl
      | list xs => rfl
    simp [get_lockfile_version, get_lockfile_version_exc, hc, hb]
  · intro kvs hc hns
    have hb : lockfile_lookup_body (.dict kvs) script_name = .error "AttributeError" := by
      cases hs : dictGetD kvs "scripts" (.dict []) with
      | dict skvs => exact absurd hs (hns skvs)
      | none => simp [lockfile_lookup_body, hs]
      | bool b => simp [lockfile_lookup_body, hs]
      | int n => simp [lockfile_lookup_body, hs]
      | str s => simp [lockfile_lookup_body, hs]
      | list xs => simp [lockfile_lookup_body, hs]
    simp [get_lockfile_version, get_lockfile_version_exc, hc, hb]
  · intro kvs skvs hc hs hfind
    have hb : lockfile_lookup_body (.dict kvs) script_name = .ok .none := by
      simp only [lockfile_lookup_body, hs, dictGet, hfind]
    simp [get_lockfile_version, get_lockfile_version_exc, hc, hb]
  · intro env cat hpl hul
    subst hpl
    subst hul
    cases hp2 : check_space env.project_scripts script_name cat with
    | some pp => simp [resolve_script, hp2]
    | none =>
      cases hu2 : check_space env.user_scripts script_name cat with
      | some up => simp [resolve_script, hp2, hu2]
      | none =>
        cases hr2 : env.registry_get
            (get_lockfile_version env.project_lock env.user_lock script_name) with
        | some reg => simp [resolve_script, hp2, hu2, hr2]
        | none => simp [resolve_script, hp2, hu2, hr2]

theorem C9_get_lockfile_version_witness :
    get_lockfile_version .absent .unreadable "scraper" = .none ∧
    get_lockfile_version (.content (.str "junk")) .absent "scraper" = .none ∧
    get_lockfile_version (.content (.dict [("scripts", .dict [])])) .absent
      "scraper" = .none :=
  ⟨(C9_get_lockfile_version_never_raises .absent .unreadable "scraper").2.2.1 rfl,
   (C9_get_lockfile_version_never_raises (.content (.str "junk")) .absent
      "scraper").2.2.2.1 (.str "junk") rfl (fun kvs h => by cases h),
   (C9_get_lockfile_version_never_raises (.content (.dict [("scripts", .dict [])]))
      .absent "scraper").2.2.2.2.2.1 [("scripts", .dict [])] [] rfl rfl rfl⟩

/-! ### Stream-restoration lemmas -/

theorem restoreHandlers_map_hid :
    ∀ (records : List (Nat × Nat)) (hs : List LogHandler),
      (restoreHandlers records hs).map LogHandler.hid = hs.map LogHandler.hid
  | [], hs => rfl
  | r :: rs, hs => by
      simp only [restoreHandlers, List.foldl_cons]
      rw [show (List.foldl _ _ _ : List LogHandler) =
        restoreHandlers rs (hs.map (fun h =>
          if h.hid == r.1 then { h with stream := r.2 } else h)) from rfl]
      rw [restoreHandlers_map_hid rs]
      simp only [List.map_map]
      congr 1
      funext h
      by_cases hh : h.hid == r.1 <;> simp [hh, Function.comp]

theorem restoreHandlers_preserve :
    ∀ (records : List (Nat × Nat)) (orig hid : Nat) (hs : List LogHandler),
      (∀ r ∈ records, r.2 = orig) →
      (∀ h ∈ hs, h.hid = hid → h.stream = orig) →
      ∀ h ∈ restoreHandlers records hs, h.hid = hid → h.stream = orig
  | [], orig, hid, hs => by
      intro _ hinv h hmem
      exact hinv h hmem
  | r :: rs, orig, hid, hs => by
      intro hrec hinv
      simp only [restoreHandlers, List.foldl_cons]
      rw [show (List.foldl _ _ _ : List LogHandler) =
        restoreHandlers rs (hs.map (fun h =>
          if h.hid == r.1 then { h with stream := r.2 } else h)) from rfl]
      apply restoreHandlers_preserve rs orig hid _
        (fun r' hr' => hrec r' (List.mem_cons_of_mem r hr'))
      intro h' hmem' hhid'
      obtain ⟨h0, hh0, heq⟩ := List.mem_map.mp hmem'
      by_cases hc : h0.hid == r.1
      · rw [if_pos hc] at heq
        subst heq
        exact hrec r (List.mem_cons_self r rs)
      · rw [if_neg hc] at heq
        subst heq
        exact hinv h0 hh0 hhid'

theorem restoreHandlers_sets :
    ∀ (records : List (Nat × Nat)) (orig hid : Nat) (hs : List LogHandler),
      (∀ r ∈ records, r.2 = orig) → (hid, orig) ∈ records →
      ∀ h ∈ restoreHandlers records hs, h.hid = hid → h.stream = orig
  | [], orig, hid, hs => by
      intro _ hmem
      exact absurd hmem (List.not_mem_nil _)
  | r :: rs, orig, hid, hs => by
      intro hrec hmem
      simp only [restoreHandlers, List.foldl_cons]
      rw [show (List.foldl _ _ _ : List LogHandler) =
        restoreHandlers rs (hs.map (fun h =>
          if h.hid == r.1 then { h with stream := r.2 } else h)) from rfl]
      rcases List.mem_cons.mp hmem with heq | htail
      · subst heq
        apply restoreHandlers_preserve rs orig hid _
          (fun r' hr' => hrec r' (List.mem_cons_of_mem _ hr'))
        intro h' hmem' hhid'
        obtain ⟨h0, hh0, heq⟩ := List.mem_map.mp hmem'
        by_cases hc : h0.hid == (hid, orig).1
        · rw [if_pos hc] at heq
          subst heq
          rfl
        · rw [if_neg hc] at heq
          subst heq
          exact absurd (by simp [hhid']) hc
      · exact restoreHandlers_sets rs orig hid _
          (fun r' hr' => hrec r' (List.mem_cons_of_mem _ hr')) htail

theorem streamOf_eq_of_all (hid orig : Nat) (hs : List LogHandler)
    (hex : ∃ h ∈ hs, h.hid = hid)
    (hall : ∀ h ∈ hs, h.hid = hid → h.stream = orig) :
    streamOf hid hs = some orig := by
  obtain ⟨h, hmem, hh⟩ := hex
  have hsome : (hs.find? (fun h => h.hid == hid)).isSome := by
    rw [List.find?_isSome]
    exact ⟨h, hmem, by simp [hh]⟩
  obtain ⟨h0, hh0⟩ := Option.isSome_iff_exists.mp hsome
  have hpred : h0.hid = hid := by
    have := List.find?_some hh0
    simpa using this
  have hmem0 : h0 ∈ hs := List.mem_of_find?_eq_some hh0
  simp [streamOf, hh0, hall h0 hmem0 hpred]

/-- C8 (confirmed): for a function-based script run with log streaming on,
`sys.stderr` and every logging handler that was rewired to the dual writer
(those pointed at the original stderr at entry) are back on their original
stream after `_run_function_script` returns — whatever the script function
did to the state and however it ended, return or exception.  The dual
writer is a fresh object (`hfresh`), and the script function is assumed not
to add or remove logging handlers (`hids`), only to use or repoint them. -/
theorem C8_stream_restoration (dual : Nat) (func : LogState → FuncOutcome × LogState)
    (st : LogState)
    (hfresh : ∀ h ∈ st.handlers, h.stream ≠ dual)
    (hids : ∀ s, ((func s).2.handlers.map LogHandler.hid) = s.handlers.map LogHandler.hid) :
    ((run_function_script dual func true st).2.stderr = st.stderr) ∧
    (∀ h ∈ st.handlers, h.stream = st.stderr →
      streamOf h.hid (run_function_script dual func true st).2.handlers =
        some st.stderr) := by
  constructor
  · simp [run_function_script]
  · intro h hmem hstream
    simp only [run_function_script, Bool.not_true, Bool.false_eq_true, if_false]
    have hrec_mem : (h.hid, st.stderr) ∈ rewireRecords st.stderr dual st.handlers := by
      rw [rewireRecords, List.mem_filterMap]
      exact ⟨h, hmem, by simp [hstream]⟩
    have hrec_all : ∀ r ∈ rewireRecords st.stderr dual st.handlers, r.2 = st.stderr := by
      intro r hr
      rw [rewireRecords, List.mem_filterMap] at hr
      obtain ⟨h0, _, hf⟩ := hr
      by_cases hc : h0.stream == st.stderr || h0.stream == dual
      · rw [if_pos hc] at hf
        cases hf
        rfl
      · rw [if_neg hc] at hf
        cases hf
    apply streamOf_eq_of_all
    · have hmap : (restoreHandlers (rewireRecords st.stderr dual st.handlers)
          (func { stderr := dual,
                  handlers := rewireHandlers st.stderr dual st.handlers }).2.handlers).map
            LogHandler.hid = st.handlers.map LogHandler.hid := by
        rw [restoreHandlers_map_hid, hids]
        simp only [rewireHandlers, List.map_map]
        congr 1
        funext h0
        by_cases hc : h0.stream == st.stderr || h0.stream == dual <;>
          simp [hc, Function.comp]
      have : h.hid ∈ (restoreHandlers (rewireRecords st.stderr dual st.handlers)
          (func { stderr := dual,
                  handlers := rewireHandlers st.stderr dual st.handlers }).2.handlers).map
            LogHandler.hid := by
        rw [hmap]
        exact List.mem_map.mpr ⟨h, hmem, rfl⟩
      obtain ⟨h1, hm1, he1⟩ := List.mem_map.mp this
      exact ⟨h1, hm1, he1⟩
    · exact restoreHandlers_sets _ st.stderr h.hid _ hrec_all hrec_mem

/-- A script function that raises and leaves stderr repointed. -/
def c8Func : LogState → FuncOutcome × LogState :=
  fun s => (.raises "boom", { stderr := 9, handlers := s.handlers })

def c8State : LogState := { stderr := 0, handlers := [⟨1, 0⟩, ⟨2, 3⟩] }

theorem C8_stream_restoration_witness :
    ((run_function_script 5 c8Func true c8State).2.stderr = c8State.stderr) ∧
    streamOf 1 (run_function_script 5 c8Func true c8State).2.handlers =
      some c8State.stderr :=
  ⟨(C8_stream_restoration 5 c8Func c8State (by decide) (fun s => rfl)).1,
   (C8_stream_restoration 5 c8Func c8State (by decide) (fun s => rfl)).2
     ⟨1, 0⟩ (by decide) rfl⟩

/-! ### Dry-run claims -/

/-- C3 (confirmed): a dry run that passes resolution, preflight, the
library-dependency check and the pip-dependency step returns the
`validation_passed` response with the cost/time estimates
(`respDryRun`), and its effect trace holds at most pip installs — the
script is never imported or invoked, no script subprocess is spawned, and
no output file is written. -/
theorem C3_dry_run_no_execution (p : RunParams) (env : ExecEnv)
    (hdry : p.dry_run = true)
    (hname : p.script_name ≠ "")
    (hloc : env.resolved.location = some "project" ∨ env.resolved.location = some "user")
    (hpf : env.preflight.pass = true)
    (hlibs : ∀ s, env.registryScript = some s →
       pyTruthy (dictGetD s "required_libs" (.list [])) = false ∨
       ∃ libs, dictGetD s "required_libs" (.list []) = .list libs ∧
         libs.filter (fun l => !(env.libAvailable (pyFStr l))) = [])
    (hmerge : ∃ deps, mergedPipDependencies p env env.resolved = .ok deps)
    (hinstall : ∀ deps, mergedPipDependencies p env env.resolved = .ok deps →
       ∃ missing, check_pip_dependencies env.importOk deps = .ok missing ∧
         (install_pip_dependencies env.pipInstallOk
           (missing.map (fun m => ⟨m.name, m.version⟩))).failed = []) :
    ∃ effs, execute p env = .ok (respDryRun env.registryScript, effs) ∧
      ∀ e ∈ effs, ∃ spec, e = .installPip spec := by
  have hn : (p.script_name == "") = false := by simpa using hname
  have h1 : env.resolved.location.isNone = false := by
    rcases hloc with hl | hl <;> simp [hl]
  have h2 : (env.resolved.location == some "registry" && env.resolved.path.isNone)
      = false := by
    rcases hloc with hl | hl <;>
      rw [hl, Bool.and_eq_false_iff] <;> exact Or.inl (by decide)
  have e1 : execute p env = executeFrom p env env.resolved [] := by
    simp only [execute, hn, Bool.false_eq_true, if_false, h1, h2]
  have e2 : executeFrom p env env.resolved [] = executeLibs p env env.resolved [] := by
    cases hrs : env.registryScript with
    | none => simp [executeFrom, hrs]
    | some s => simp [executeFrom, hrs, hpf]
  have e3 : executeLibs p env env.resolved [] = executePip p env env.resolved [] := by
    cases hrs : env.registryScript with
    | none => simp [executeLibs, hrs]
    | some s =>
        rcases hlibs s hrs with hfalse | ⟨libs, hl, hfil⟩
        · simp [executeLibs, hrs, hfalse]
        · by_cases hte : pyTruthy (.list libs) = true
          · simp only [executeLibs, hrs, hl, hte, if_true, hfil]
            simp
          · simp [executeLibs, hrs, hl, hte]
  have e4 : ∃ effs, executePip p env env.resolved [] =
      .ok (respDryRun env.registryScript, effs) ∧
      ∀ e ∈ effs, ∃ spec, e = .installPip spec := by
    obtain ⟨deps, hm⟩ := hmerge
    obtain ⟨missing, hcheck, hfail⟩ := hinstall deps hm
    by_cases hde : deps.isEmpty
    · exact ⟨[], by simp [executePip, hm, hde, executeDryRunGate, hdry], by simp⟩
    · by_cases hme : missing.isEmpty
      · exact ⟨[], by simp [executePip, hm, hde, hcheck, hme,
          executeDryRunGate, hdry], by simp⟩
      · refine ⟨(missing.map (fun m => (⟨m.name, m.version⟩ : Dep))).map (fun d =>
          Effect.installPip (run_install_package_spec d.name d.version)), ?_, ?_⟩
        · have hfe : (install_pip_dependencies env.pipInstallOk
              (missing.map (fun m => ⟨m.name, m.version⟩))).failed.isEmpty = true := by
            rw [hfail]; rfl
          simp [executePip, hm, hde, hcheck, hme, hfe, executeDryRunGate, hdry]
        · intro e he
          obtain ⟨d, _, hd⟩ := List.mem_map.mp he
          exact ⟨run_install_package_spec d.name d.version, hd.symm⟩
  obtain ⟨effs, he, hspec⟩ := e4
  exact ⟨effs, by rw [e1, e2, e3, he], hspec⟩

/-- A resolution result locating a script in the project tier. -/
def c3Resolved : ResolveResult :=
  { location := some "project", path := some ["utility", "noop_script.py"],
    category := .str "utility", subcategory := .none, version := .none,
    lockfile_version := .none, registry_data := Option.none }

/-- A dry-run environment: project-tier script, no registry metadata, no
file dependencies. -/
def c3Env : ExecEnv :=
  { resolved := c3Resolved, resolvedAfterDownload := c3Resolved,
    registryScript := Option.none,
    preflight := { pass := true, blockers := [], warnings := [] },
    libAvailable := fun _ => true, fileDependencies := [],
    importOk := fun _ => true, pipInstallOk := fun _ => true,
    scriptShape := .executeFn, invocation := .ok .none,
    executionId := "exec-1", elapsed := .int 0, timestamp := 0,
    scriptKiwiHome := "home" }

def c3Params : RunParams :=
  { script_name := "noop_script", parameters := [], dry_run := true,
    auto_download := false }

theorem C3_dry_run_no_execution_witness :
    ∃ effs, execute c3Params c3Env = .ok (respDryRun Option.none, effs) ∧
      ∀ e ∈ effs, ∃ spec, e = .installPip spec :=
  C3_dry_run_no_execution c3Params c3Env rfl (by decide) (Or.inl rfl) rfl
    (fun s hs => by cases hs)
    ⟨[], rfl⟩
    (fun deps hd => by
      cases hd
      exact ⟨[], rfl, rfl⟩)

/-! ### Response-shape lemmas -/

/-- The shape every `execute` response actually satisfies: a single JSON
object carrying a top-level `status` or a top-level `error`, and carrying
`error` whenever its status is the string `"error"`. -/
def goodResponse (r : PyVal) : Prop :=
  (∃ kvs, r = .dict kvs) ∧
  (hasKey r "status" = true ∨ hasKey r "error" = true) ∧
  (topGet r "status" = some (.str "error") → hasKey r "error" = true)

theorem good_respMissingName : goodResponse respMissingName := by
  simp [goodResponse, respMissingName, hasKey, topGet]

theorem good_respScriptNotFound (n : String) : goodResponse (respScriptNotFound n) := by
  simp [goodResponse, respScriptNotFound, hasKey, topGet]

theorem good_respNotFoundLocally (n : String) :
    goodResponse (respNotFoundLocally n) := by
  simp [goodResponse, respNotFoundLocally, hasKey, topGet]

theorem good_respNotFoundLocally2 (n : String) (loc : Option String) :
    goodResponse (respNotFoundLocally2 n loc) := by
  simp [goodResponse, respNotFoundLocally2, hasKey, topGet]

theorem good_respValidationFailed (pf : PreflightResult) :
    goodResponse (respValidationFailed pf) := by
  simp [goodResponse, respValidationFailed, hasKey, topGet]

theorem good_respMissingLibs (n : String) (libs : List PyVal) :
    goodResponse (respMissingLibs n libs) := by
  simp [goodResponse, respMissingLibs, hasKey, topGet]

theorem good_respMetadataCorruption (n : String) (e : DepError) :
    goodResponse (respMetadataCorruption n e) := by
  simp [goodResponse, respMetadataCorruption, hasKey, topGet]

theorem good_respInstallFailed (ir : InstallResult) :
    goodResponse (respInstallFailed ir) := by
  simp [goodResponse, respInstallFailed, hasKey, topGet]

theorem good_respDryRun (s : Option (List (String × PyVal))) :
    goodResponse (respDryRun s) := by
  simp [goodResponse, respDryRun, hasKey, topGet]

theorem good_respDependencyError (m : Option PyVal) (el : PyVal) :
    goodResponse (respDependencyError m el) := by
  simp [goodResponse, respDependencyError, hasKey, topGet]

theorem good_respGenericError (n eid msg ty : String) (el : PyVal) :
    goodResponse (respGenericError n eid msg ty el) := by
  simp [goodResponse, respGenericError, hasKey, topGet]

/-- The `or`-chain ending in `"Unknown error"` is always truthy. -/
theorem pyTruthy_pyOr_default (a b : PyVal) :
    pyTruthy (pyOr a (pyOr b (.str "Unknown error"))) = true := by
  unfold pyOr
  split_ifs with h1 h2 <;> simp_all [pyTruthy]

/-- A response headed by a `status` key is good provided an `error` entry
follows whenever the status value is the string `"error"`. -/
theorem goodResponse_mk (st : PyVal) (rest : List (String × PyVal))
    (h : st = .str "error" →
      (rest.find? (fun kv => kv.1 == "error")).isSome = true) :
    goodResponse (.dict (("status", st) :: rest)) := by
  refine ⟨⟨_, rfl⟩, Or.inl (by simp [hasKey]), ?_⟩
  intro hst
  simp only [topGet, List.find?] at hst
  rw [show (("status", st).1 == "status") = true by simp] at hst
  simp only [Option.map_some] at hst
  cases hst
  simpa [hasKey] using h rfl

/-- When the extracted status is `"error"`, the captured error value is
truthy (the chain falls back to `"Unknown error"`). -/
theorem shapeScriptError_truthy (result : PyVal)
    (hst : shapeScriptStatus result = .str "error") :
    pyTruthy (shapeScriptError result) = true := by
  unfold shapeScriptError
  by_cases hact : (pyTruthy result && resultIsDict result) = true
  · rw [if_pos (by rw [hact, hst]; simp)]
    exact pyTruthy_pyOr_default _ _
  · unfold shapeScriptStatus at hst
    rw [if_neg hact] at hst
    exact absurd hst (by simp)

theorem good_shapeSuccess (p : RunParams) (env : ExecEnv) (result : PyVal)
    (output_file save_output : PyVal) (effects : List Effect) :
    goodResponse (shapeSuccess p env result output_file save_output effects).1 := by
  simp only [shapeSuccess]
  split
  · apply goodResponse_mk
    intro hst
    rw [if_pos (shapeScriptError_truthy result hst)]
    simp
  · exact good_respGenericError _ _ _ _ _

theorem good_executeScript (p : RunParams) (env : ExecEnv) (effects : List Effect) :
    goodResponse (executeScript p env effects).1 := by
  simp only [executeScript]
  cases env.scriptShape with
  | neither => exact good_respGenericError _ _ _ _ _
  | executeFn =>
      cases env.invocation with
      | ok r => exact good_shapeSuccess _ _ _ _ _ _
      | importError m => exact good_respDependencyError _ _
      | otherError msg ty => exact good_respGenericError _ _ _ _ _
  | mainWithParams =>
      cases env.invocation with
      | ok r => exact good_shapeSuccess _ _ _ _ _ _
      | importError m => exact good_respDependencyError _ _
      | otherError msg ty => exact good_respGenericError _ _ _ _ _
  | mainArgparse =>
      cases env.invocation with
      | ok r => exact good_shapeSuccess _ _ _ _ _ _
      | importError m => exact good_respDependencyError _ _
      | otherError msg ty => exact good_respGenericError _ _ _ _ _

theorem good_executeDryRunGate (p : RunParams) (env : ExecEnv)
    (resolved : ResolveResult) (effects : List Effect) :
    goodResponse (executeDryRunGate p env resolved effects).1 := by
  simp only [executeDryRunGate]
  split_ifs
  · exact good_respDryRun _
  · exact good_respNotFoundLocally2 _ _
  · exact good_executeScript _ _ _

/-- Injectivity helper: equal `.ok` pairs have equal first components. -/
theorem okPairFst {ε α β : Type} {x : α × β} {r : α} {es : β}
    (h : (Except.ok x : Except ε (α × β)) = .ok (r, es)) : x.1 = r := by
  injection h with h
  rw [h]

/-- The `.error` payload of the merge is always the corruption response. -/
theorem mergedPipDependencies_error (p : RunParams) (env : ExecEnv)
    (resolved : ResolveResult) (r : PyVal)
    (h : mergedPipDependencies p env resolved = .error r) :
    ∃ e, r = respMetadataCorruption p.script_name e := by
  cases hrs : env.registryScript with
  | none =>
      simp only [mergedPipDependencies, hrs] at h
      exact absurd h (by simp)
  | some s =>
      simp only [mergedPipDependencies, hrs] at h
      by_cases ht : pyTruthy (dictGet s "dependencies") = true
      · rw [if_pos ht] at h
        cases hv : validate_dependencies (dictGet s "dependencies") with
        | error e =>
            rw [hv] at h
            simp at h
            exact ⟨e, h.symm⟩
        | ok validated =>
            rw [hv] at h
            exact absurd h (by simp)
      · rw [if_neg ht] at h
        exact absurd h (by simp)

theorem good_executePip (p : RunParams) (env : ExecEnv) (resolved : ResolveResult)
    (effects : List Effect) (r : PyVal) (effs : List Effect)
    (h : executePip p env resolved effects = .ok (r, effs)) :
    goodResponse r := by
  cases hm : mergedPipDependencies p env resolved with
  | error resp =>
      simp only [executePip, hm] at h
      obtain ⟨e, he⟩ := mergedPipDependencies_error p env resolved resp hm
      rw [← okPairFst h, he]
      exact good_respMetadataCorruption _ _
  | ok deps =>
      simp only [executePip, hm] at h
      by_cases hde : deps.isEmpty
      · simp only [hde, Bool.not_true, Bool.false_eq_true, if_false] at h
        rw [← okPairFst h]
        exact good_executeDryRunGate _ _ _ _
      · have hde' : deps.isEmpty = false := by
          revert hde; cases deps.isEmpty <;> simp
        simp only [hde', Bool.not_false, if_true] at h
        cases hc : check_pip_dependencies env.importOk deps with
        | error e =>
            simp only [hc] at h
            exact absurd h (by simp)
        | ok missing =>
            simp only [hc] at h
            by_cases hme : missing.isEmpty
            · simp only [hme, Bool.not_true, Bool.false_eq_true, if_false] at h
              rw [← okPairFst h]
              exact good_executeDryRunGate _ _ _ _
            · have hme' : missing.isEmpty = false := by
                revert hme; cases missing.isEmpty <;> simp
              simp only [hme', Bool.not_false, if_true] at h
              split at h
              · rw [← okPairFst h]
                exact good_respInstallFailed _
              · rw [← okPairFst h]
                exact good_executeDryRunGate _ _ _ _

theorem good_executeLibs (p : RunParams) (env : ExecEnv) (resolved : ResolveResult)
    (effects : List Effect) (r : PyVal) (effs : List Effect)
    (h : executeLibs p env resolved effects = .ok (r, effs)) :
    goodResponse r := by
  cases hrs : env.registryScript with
  | none =>
      simp only [executeLibs, hrs] at h
      exact good_executePip _ _ _ _ _ _ h
  | some s =>
      simp only [executeLibs, hrs] at h
      by_cases ht : pyTruthy (dictGetD s "required_libs" (.list [])) = true
      · rw [if_pos ht] at h
        split at h
        · split at h
          · rw [← okPairFst h]
            exact good_respMissingLibs _ _
          · exact good_executePip _ _ _ _ _ _ h
        · exact absurd h (by simp)
      · rw [if_neg ht] at h
        exact good_executePip _ _ _ _ _ _ h

theorem good_executeFrom (p : RunParams) (env : ExecEnv) (resolved : ResolveResult)
    (effects : List Effect) (r : PyVal) (effs : List Effect)
    (h : executeFrom p env resolved effects = .ok (r, effs)) :
    goodResponse r := by
  cases hrs : env.registryScript with
  | none =>
      simp only [executeFrom, hrs] at h
      exact good_executeLibs _ _ _ _ _ _ h
  | some s =>
      simp only [executeFrom, hrs] at h
      by_cases hpf : env.preflight.pass = true
      · simp only [hpf, Bool.not_true, Bool.false_eq_true, if_false] at h
        exact good_executeLibs _ _ _ _ _ _ h
      · have hpf' : env.preflight.pass = false := by
          revert hpf; cases env.preflight.pass <;> simp
        simp only [hpf', Bool.not_false, if_true] at h
        rw [← okPairFst h]
        exact good_respValidationFailed _

/-- C7 (amended): every response `execute` returns — success or failure —
is a single JSON object, it carries a top-level `status` field or a
top-level `error` field, and whenever its status is `"error"` it also
carries an `error` field.  (Resolution and missing-library failures carry
`error` without `status`; see the counterexample.) -/
theorem C7_response_status_or_error (p : RunParams) (env : ExecEnv)
    (resp : PyVal) (effs : List Effect)
    (h : execute p env = .ok (resp, effs)) :
    (∃ kvs, resp = .dict kvs) ∧
    (hasKey resp "status" = true ∨ hasKey resp "error" = true) ∧
    (topGet resp "status" = some (.str "error") → hasKey resp "error" = true) := by
  show goodResponse resp
  simp only [execute] at h
  by_cases hn : (p.script_name == "") = true
  · rw [if_pos hn] at h
    rw [← okPairFst h]
    exact good_respMissingName
  · rw [if_neg hn] at h
    by_cases h1 : env.resolved.location.isNone = true
    · rw [if_pos h1] at h
      rw [← okPairFst h]
      exact good_respScriptNotFound _
    · rw [if_neg h1] at h
      by_cases h2 : (env.resolved.location == some "registry" &&
          env.resolved.path.isNone) = true
      · rw [if_pos h2] at h
        by_cases had : p.auto_download = true
        · rw [if_pos had] at h
          cases hrs : env.registryScript with
          | none =>
              simp only [hrs] at h
              exact absurd h (by simp)
          | some s =>
              simp only [hrs] at h
              by_cases hcont : pyTruthy (dictGet s "content") = true
              · simp only [hcont, Bool.not_true, Bool.false_eq_true, if_false] at h
                exact good_executeFrom _ _ _ _ _ _ h
              · have hcont' : pyTruthy (dictGet s "content") = false := by
                  revert hcont; cases pyTruthy (dictGet s "content") <;> simp
                simp only [hcont', Bool.not_false, if_true] at h
                exact absurd h (by simp)
        · rw [if_neg had] at h
          rw [← okPairFst h]
          exact good_respNotFoundLocally _
      · rw [if_neg h2] at h
        exact good_executeFrom _ _ _ _ _ _ h

theorem C7_response_status_or_error_witness :
    (∃ kvs, respDryRun (Option.none : Option (List (String × PyVal))) = .dict kvs) ∧
    (hasKey (respDryRun Option.none) "status" = true ∨
      hasKey (respDryRun Option.none) "error" = true) ∧
    (topGet (respDryRun Option.none) "status" = some (.str "error") →
      hasKey (respDryRun Option.none) "error" = true) :=
  C7_response_status_or_error c3Params c3Env (respDryRun Option.none) [] rfl

/-- The resolution result of a miss in all three tiers. -/
def c7Resolved : ResolveResult :=
  { location := Option.none, path := Option.none,
    category := .none, subcategory := .none, version := .none,
    lockfile_version := .none, registry_data := Option.none }

/-- The executor environment of a resolution miss. -/
def c7Env : ExecEnv :=
  { resolved := c7Resolved,
    resolvedAfterDownload := c7Resolved,
    registryScript := Option.none,
    preflight := { pass := true, blockers := [], warnings := [] },
    libAvailable := fun _ => false, fileDependencies := [],
    importOk := fun _ => false, pipInstallOk := fun _ => false,
    scriptShape := .neither, invocation := .ok .none,
    executionId := "x", elapsed := .int 0, timestamp := 0,
    scriptKiwiHome := "home" }

def c7Params : RunParams :=
  { script_name := "ghost", parameters := [], dry_run := false,
    auto_download := false }

/-- C7, counterexample.  For a script name no tier or registry knows,
`execute` returns the `SCRIPT_NOT_FOUND` object `{"error": {...}}` with
*no* top-level `status` field, refuting the claim that every response is a
JSON object with a top-level `status`. -/
theorem C7_counterexample :
    execute c7Params c7Env = .ok (respScriptNotFound "ghost", []) ∧
    hasKey (respScriptNotFound "ghost") "status" = false := by
  constructor
  · rfl
  · rfl

end ScriptKiwi
